import Mathlib

/-!
# CareerCraft-AI: verification of the Analysis Orchestration Engine

A shallow embedding in Lean 4 of the core of the CareerCraft-AI backend:

* `backend/services/job_analysis_service.py` — the seven-step job-analysis
  orchestrator (`JobAnalysisService`): job lifecycle, per-step progress
  records, degrade-not-fail handling of Company Research, progress/result/
  cancel/cleanup queries and the job-match score.
* `backend/utils/parsers.py` — the heuristic resume text parser
  (`ResumeParser.parse_resume`), in particular its empty-input guard.

Python dictionaries keyed by job id are modelled as association lists,
`datetime` timestamps as natural-number ticks, float arithmetic on the
score as exact rationals, and the two external capabilities (the Claude
client and its JSON interpretation) as an explicit environment record so
that theorems can quantify over every possible outcome of the external
calls.  Exceptions are modelled with `Except String`.
-/

namespace CareerCraft

/-! ## Python string helpers -/

/-- The whitespace characters recognised by Python `str.strip()` / `\s`
(ASCII fragment: space, tab, newline, carriage return, vertical tab,
form feed). -/
def isPySpace (c : Char) : Bool :=
  c = ' ' || c = '\t' || c = '\n' || c = '\r' || c = '\x0b' || c = '\x0c'

/-- Python `str.strip()`. -/
def pyStrip (s : String) : String :=
  String.mk (((s.toList.dropWhile isPySpace).reverse.dropWhile isPySpace).reverse)

/-- Python truthiness of a string: `""` is falsy. -/
def truthyStr (s : String) : Bool := s != ""

/-- Python truthiness of an `Optional[str]`: `None` and `""` are falsy. -/
def truthyOpt (o : Option String) : Bool :=
  match o with
  | some s => truthyStr s
  | none => false

/-- Python `str.split()` with no argument: split on whitespace runs,
dropping empty tokens. -/
def pySplitWS (s : String) : List String :=
  (s.split isPySpace).filter (fun t => !t.isEmpty)

/-- Render an optional string the way a Python f-string renders the value
(`None` prints as `"None"`). -/
def pyShowOpt (o : Option String) : String :=
  match o with
  | some s => s
  | none => "None"

/-- A single-quote character, used when rendering Python `str(list)`. -/
def sq : Char := Char.ofNat 39

/-- Python `str(...)` applied to a list of strings (`repr` form,
e.g. `['a', 'b']`). -/
def pyReprList (l : List String) : String :=
  "[" ++ String.intercalate ", " (l.map (fun s => String.singleton sq ++ s ++ String.singleton sq)) ++ "]"

/-- Python `round(a / b)` for natural `a`, `b > 0`: round half to even
(banker's rounding), as in the specification's `round(100 * c / 7)`. -/
def pyRoundNat (a b : Nat) : Nat :=
  let f := a / b
  let r := a % b
  if 2 * r < b then f
  else if b < 2 * r then f + 1
  else if f % 2 = 0 then f else f + 1

/-! ## Association lists (Python dict keyed by job id, insertion ordered) -/

/-- Dict lookup (`d.get(k)` / `k in d`). -/
def alistGet {α : Type} (k : String) : List (String × α) → Option α
  | [] => none
  | (k2, v) :: rest => if k2 = k then some v else alistGet k rest

/-- Dict assignment `d[k] = v`: replaces in place, or appends. -/
def alistSet {α : Type} (k : String) (v : α) : List (String × α) → List (String × α)
  | [] => [(k, v)]
  | (k2, v2) :: rest => if k2 = k then (k, v) :: rest else (k2, v2) :: alistSet k v rest

/-- Mutation of the stored value when the key is present (Python code of the
form `x = d.get(k, fresh); mutate x` only persists when `k` was present). -/
def alistModify {α : Type} (k : String) (f : α → α) : List (String × α) → List (String × α)
  | [] => []
  | (k2, v2) :: rest => if k2 = k then (k2, f v2) :: rest else (k2, v2) :: alistModify k f rest

/-- Dict deletion `del d[k]` / `d.pop(k, None)`. -/
def alistErase {α : Type} (k : String) : List (String × α) → List (String × α)
  | [] => []
  | (k2, v2) :: rest => if k2 = k then rest else (k2, v2) :: alistErase k rest

/-- Does the first list occur as a leading segment of the second? -/
def leadsList : List Char → List Char → Bool
  | [], _ => true
  | _ :: _, [] => false
  | n :: ns, h :: hs => n = h && leadsList ns hs

/-- Substring test (Python `needle in hay`). -/
def subOf (needle hay : List Char) : Bool :=
  match hay with
  | [] => needle.isEmpty
  | _ :: rest => leadsList needle hay || subOf needle rest

/-- Substring test on strings. -/
def strContains (hay needle : String) : Bool :=
  subOf needle.toList hay.toList

/-- Insertion sort of strings by code-point order (Python `sorted`). -/
def insertSorted (s : String) : List String → List String
  | [] => [s]
  | t :: rest => if s ≤ t then s :: t :: rest else t :: insertSorted s rest

/-- Python `sorted(list_of_strings)`. -/
def sortStrings : List String → List String
  | [] => []
  | s :: rest => insertSorted s (sortStrings rest)

end CareerCraft

namespace CareerCraft

/-! ## Resume parser data model (`backend/utils/parsers.py`) -/

/-- Contact information extracted from a resume. -/
structure ContactInfo where
  email : Option String := none
  phone : Option String := none
  linkedin : Option String := none
  github : Option String := none
  website : Option String := none
  address : Option String := none
deriving Repr, DecidableEq

/-- A work experience entry. -/
structure WorkExperience where
  company : String
  position : String
  start_date : Option String := none
  end_date : Option String := none
  location : Option String := none
  description : List String := []
  technologies : List String := []
deriving Repr, DecidableEq

/-- An education entry. -/
structure Education where
  institution : String
  degree : String
  field_of_study : Option String := none
  graduation_date : Option String := none
  gpa : Option String := none
  location : Option String := none
deriving Repr, DecidableEq

/-- A project entry. -/
structure Project where
  name : String
  description : String
  technologies : List String := []
  url : Option String := none
deriving Repr, DecidableEq

/-- The complete parsed resume structure. -/
structure ParsedResume where
  raw_text : String
  contact_info : ContactInfo
  summary : Option String := none
  work_experience : List WorkExperience := []
  education : List Education := []
  skills : List String := []
  projects : List Project := []
  certifications : List String := []
  languages : List String := []
  sections : List (String × String) := []
  metadata : List (String × String) := []
deriving Repr, DecidableEq

/-! ## Character-level scanning machinery

Hand-rolled scanners standing in for the `re` module.  Each matcher
consumes at least one character on success, and the drivers carry fuel
bounded by the input length. -/

/-- Python `\w` (ASCII fragment). -/
def isWordChar (c : Char) : Bool := c.isAlphanum || c = '_'

def isWordOpt : Option Char → Bool
  | some c => isWordChar c
  | none => false

/-- Python `\b` between two adjacent positions. -/
def flipB (a b : Option Char) : Bool := isWordOpt a != isWordOpt b

/-- Case-insensitive literal match; returns consumed slice (original case)
and the rest. -/
def matchCI : List Char → List Char → Option (List Char × List Char)
  | [], cs => some ([], cs)
  | _ :: _, [] => none
  | p :: ps, c :: cs =>
    if p.toLower = c.toLower then
      (matchCI ps cs).map (fun r => (c :: r.1, r.2))
    else none

/-- Case-sensitive literal match. -/
def matchCS : List Char → List Char → Option (List Char × List Char)
  | [], cs => some ([], cs)
  | _ :: _, [] => none
  | p :: ps, c :: cs =>
    if p = c then (matchCS ps cs).map (fun r => (c :: r.1, r.2)) else none

/-- `span`: maximal leading run satisfying the predicate. -/
def spanP (p : Char → Bool) (cs : List Char) : List Char × List Char :=
  (cs.takeWhile p, cs.dropWhile p)

/-- One-or-more run (`X+`). -/
def plusP (p : Char → Bool) (cs : List Char) : Option (List Char × List Char) :=
  let r := spanP p cs
  if r.1.isEmpty then none else some r

/-- Replacement scanner: repeatedly delete leftmost matches
(`re.sub(pat, '', text)` for matchers that consume at least one char). -/
def scanRemove (att : List Char → Option (List Char)) : Nat → List Char → List Char
  | 0, cs => cs
  | _ + 1, [] => []
  | fuel + 1, c :: rest =>
    match att (c :: rest) with
    | some rest2 => scanRemove att fuel rest2
    | none => c :: scanRemove att fuel rest

/-- Search scanner: leftmost match (`re.search`).  The matcher sees the
previous character (for `\b`). -/
def scanFirst {α : Type} (att : Option Char → List Char → Option α) :
    Nat → Option Char → List Char → Option α
  | 0, _, _ => none
  | fuel + 1, prev, cs =>
    match att prev cs with
    | some a => some a
    | none =>
      match cs with
      | [] => none
      | c :: rest => scanFirst att fuel (some c) rest

/-- `findall` scanner: all non-overlapping leftmost matches. -/
def scanAll (att : Option Char → List Char → Option (List Char × List Char)) :
    Nat → Option Char → List Char → List (List Char)
  | 0, _, _ => []
  | _ + 1, _, [] => []
  | fuel + 1, prev, c :: rest =>
    match att prev (c :: rest) with
    | some (slice, rest2) =>
      if slice.isEmpty then scanAll att fuel (some c) rest
      else slice :: scanAll att fuel slice.getLast? rest2
    | none => scanAll att fuel (some c) rest

end CareerCraft

namespace CareerCraft

/-! ## `ResumeParser._clean_text` -/

/-- Normalise line breaks: `re.sub(r'\r\n?', '\n', text)`. -/
def normalizeCR : List Char → List Char
  | [] => []
  | '\r' :: '\n' :: rest => '\n' :: normalizeCR rest
  | '\r' :: rest => '\n' :: normalizeCR rest
  | c :: rest => c :: normalizeCR rest

/-- Matcher for `page\s+\d+(?:\s+of\s+\d+)?` (case-insensitive), returning
the rest of the input after the greedy match. -/
def matchPageAt (cs : List Char) : Option (List Char) := do
  let (_, r1) ← matchCI "page".toList cs
  let (_, r2) ← plusP isPySpace r1
  let (_, r3) ← plusP Char.isDigit r2
  -- greedy optional " of \d+" tail
  match (do
      let (_, r4) ← plusP isPySpace r3
      let (_, r5) ← matchCI "of".toList r4
      let (_, r6) ← plusP isPySpace r5
      let (_, r7) ← plusP Char.isDigit r6
      pure r7 : Option (List Char)) with
  | some r7 => pure r7
  | none => pure r3

/-- Matcher for `(?:confidential|proprietary)` (case-insensitive). -/
def matchConfPropAt (cs : List Char) : Option (List Char) :=
  match matchCI "confidential".toList cs with
  | some (_, r) => some r
  | none => (matchCI "proprietary".toList cs).map (·.2)

/-- `_clean_text`: normalise line breaks, delete page-number artifacts and
the words confidential/proprietary, then strip each line and collapse its
internal whitespace runs to single spaces, and strip the result. -/
def clean_text (text : String) : String :=
  let cs := normalizeCR text.toList
  let cs := scanRemove matchPageAt cs.length cs
  let cs := scanRemove matchConfPropAt cs.length cs
  let lines := (String.mk cs).splitOn "\n"
  let cleaned := lines.map (fun line => String.intercalate " " (pySplitWS line))
  pyStrip (String.intercalate "\n" cleaned)

/-! ## `ResumeParser._detect_section_header` and `_extract_sections`

The section-header regexes of `SECTION_PATTERNS` contain only literal
words, `\s+` gaps and optional suffixes, and they are only ever applied to
lines already whitespace-collapsed by `_clean_text`, so each regex is
equivalent to a finite set of literal alternatives (`exacts`).  The
`any(keyword in line_lower for keyword in pattern.split())` guard splits
the raw regex SOURCE on spaces — none of the sources contain a literal
space, so the guard tests the raw source as a substring (which can only
succeed for purely literal patterns); `raw` records that source. -/

structure SecPat where
  exacts : List String
  raw : String
deriving Repr, DecidableEq

def secPatterns : List (String × List SecPat) :=
  [ ("contact",
      [ ⟨["contact informatio", "contact information"], "contact\\s+information?"⟩,
        ⟨["personal informatio", "personal information"], "personal\\s+information?"⟩,
        ⟨["contact detail", "contact details"], "contact\\s+details?"⟩ ]),
    ("summary",
      [ ⟨["summary", "professional summary"], "(?:professional\\s+)?summary"⟩,
        ⟨["profile", "professional profile"], "(?:professional\\s+)?profile"⟩,
        ⟨["objective"], "objective"⟩,
        ⟨["about me"], "about\\s+me"⟩,
        ⟨["overview"], "overview"⟩,
        ⟨["career summary"], "career\\s+summary"⟩ ]),
    ("experience",
      [ ⟨["experience", "work experience", "professional experience",
          "employment experience"], "(?:work\\s+|professional\\s+|employment\\s+)?experience"⟩,
        ⟨["work history"], "work\\s+history"⟩,
        ⟨["career history"], "career\\s+history"⟩,
        ⟨["professional background"], "professional\\s+background"⟩,
        ⟨["employment"], "employment"⟩ ]),
    ("education",
      [ ⟨["education", "educational background"], "education(?:al\\s+background)?"⟩,
        ⟨["academic background"], "academic\\s+background"⟩,
        ⟨["qualification", "qualifications"], "qualifications?"⟩,
        ⟨["degree", "degrees"], "degrees?"⟩,
        ⟨["university"], "university"⟩,
        ⟨["college"], "college"⟩ ]),
    ("skills",
      [ ⟨["skill", "skills", "technical skill", "technical skills"],
          "(?:technical\\s+)?skills?"⟩,
        ⟨["core competencies"], "core\\s+competencies"⟩,
        ⟨["expertise"], "expertise"⟩,
        ⟨["proficiencies"], "proficiencies"⟩,
        ⟨["technologies"], "technologies"⟩,
        ⟨["programming language", "programming languages"], "programming\\s+languages?"⟩ ]),
    ("projects",
      [ ⟨["project", "projects"], "projects?"⟩,
        ⟨["personal project", "personal projects"], "personal\\s+projects?"⟩,
        ⟨["portfolio"], "portfolio"⟩,
        ⟨["achievement", "achievements"], "achievements?"⟩,
        ⟨["accomplishment", "accomplishments"], "accomplishments?"⟩ ]),
    ("certifications",
      [ ⟨["certification", "certifications"], "certifications?"⟩,
        ⟨["certificate", "certificates"], "certificates?"⟩,
        ⟨["license", "licenses"], "licenses?"⟩,
        ⟨["credential", "credentials"], "credentials?"⟩ ]),
    ("languages",
      [ ⟨["language", "languages"], "languages?"⟩,
        ⟨["language skill", "language skills"], "language\\s+skills?"⟩,
        ⟨["linguistic skill", "linguistic skills"], "linguistic\\s+skills?"⟩ ]) ]

/-- `re.search(f'^{pattern}s?:?$', line_lower)`. -/
def secExact (ll : String) (p : SecPat) : Bool :=
  p.exacts.any (fun L => ll = L || ll = L ++ "s" || ll = L ++ ":" || ll = L ++ "s:")

/-- `re.search(f'^{pattern}', ...)` or `re.search(f'{pattern}$', ...)`. -/
def secStartEnd (ll : String) (p : SecPat) : Bool :=
  p.exacts.any (fun L => ll.startsWith L || ll.endsWith L)

def detectPats (line ll : String) : List SecPat → Bool
  | [] => false
  | p :: ps =>
    secExact ll p ||
    (secStartEnd ll p && (pyStrip line).length < 50 && strContains ll p.raw) ||
    detectPats line ll ps

def detectSections (line ll : String) : List (String × List SecPat) → Option String
  | [] => none
  | (name, ps) :: rest =>
    if detectPats line ll ps then some name else detectSections line ll rest

/-- `_detect_section_header`. -/
def detect_section_header (line : String) : Option String :=
  if line.length > 100 then none
  else detectSections line ((pyStrip line).toLower) secPatterns

/-- Loop body of `_extract_sections`. -/
def sectionsLoop : List String → String → List String → List (String × String) →
    List (String × String)
  | [], curSec, curContent, secs =>
    if curContent.isEmpty then secs
    else alistSet curSec (pyStrip (String.intercalate "\n" curContent.reverse)) secs
  | line :: rest, curSec, curContent, secs =>
    let l := pyStrip line
    if l.isEmpty then sectionsLoop rest curSec curContent secs
    else
      match detect_section_header l with
      | some sec =>
        let secs :=
          if curContent.isEmpty then secs
          else alistSet curSec (pyStrip (String.intercalate "\n" curContent.reverse)) secs
        sectionsLoop rest sec [] secs
      | none => sectionsLoop rest curSec (l :: curContent) secs

/-- `_extract_sections`: bucket lines into labelled sections; text before
the first detected header goes into the implicit "header" section. -/
def extract_sections (text : String) : List (String × String) :=
  sectionsLoop (text.splitOn "\n") "header" [] []

end CareerCraft

namespace CareerCraft

/-! ## `ResumeParser._extract_contact_info` -/

def isLocalChar (c : Char) : Bool :=
  c.isAlphanum || c = '.' || c = '_' || c = '%' || c = '+' || c = '-'

def isDomChar (c : Char) : Bool := c.isAlphanum || c = '.' || c = '-'

/-- The top-level-domain class of the email regex is `[A-Z|a-z]` — it
literally includes the bar character. -/
def isAlphaBar (c : Char) : Bool := c.isAlpha || c = '|'

/-- All ways to split a character list at a dot, longest prefix first
(the order in which a greedy `[A-Za-z0-9.-]+\.` backtracks). -/
def dotSplitsAsc (seenRev : List Char) : List Char → List (List Char × List Char)
  | [] => []
  | '.' :: rest => (seenRev.reverse, rest) :: dotSplitsAsc ('.' :: seenRev) rest
  | c :: rest => dotSplitsAsc (c :: seenRev) rest

def dotSplits (dom : List Char) : List (List Char × List Char) :=
  (dotSplitsAsc [] dom).reverse

/-- Matcher at one position for
`\b[A-Za-z0-9._%+-]+@[A-Za-z0-9.-]+\.[A-Z|a-z]{2,}\b`. -/
def matchEmailAt (prev : Option Char) (cs : List Char) : Option String :=
  let (loc, r1) := spanP isLocalChar cs
  if loc.isEmpty then none
  else if !flipB prev loc.head? then none
  else
    match r1 with
    | '@' :: r2 =>
      let (dom, r3) := spanP isDomChar r2
      if dom.isEmpty then none
      else
        (dotSplits dom).findSome? (fun s =>
          if s.1.isEmpty then none
          else
            let (run, rrest) := spanP isAlphaBar (s.2 ++ r3)
            if 2 ≤ run.length && flipB run.getLast? rrest.head? then
              some (String.mk (loc ++ '@' :: s.1 ++ '.' :: run))
            else none)
    | _ => none

/-- Phone separators `[-.\s]`. -/
def isSepChar (c : Char) : Bool := c = '-' || c = '.' || isPySpace c

/-- Greedy optional separator: both continuations, consuming first. -/
def sepOpt (cs : List Char) : List (List Char) :=
  match cs with
  | c :: rest => if isSepChar c then [rest, cs] else [cs]
  | [] => [cs]

/-- Greedy alternatives for the optional prefix `(?:\+?1[-.\s]?)?`. -/
def phonePre (cs : List Char) : List (List Char) :=
  (match cs with
   | '+' :: '1' :: r => sepOpt r
   | _ => []) ++
  (match cs with
   | '1' :: r => sepOpt r
   | _ => []) ++ [cs]

/-- Exactly `n` digits. -/
def digitsN (n : Nat) (cs : List Char) : Option (List Char) :=
  let d := cs.take n
  if d.length = n && d.all Char.isDigit then some (cs.drop n) else none

/-- Matcher at one position for the first phone pattern
`\b(?:\+?1[-.\s]?)?\(?(\d{3})\)?[-.\s]?(\d{3})[-.\s]?(\d{4})\b`
(greedy alternatives tried in backtracking order). -/
def matchPhone1At (prev : Option Char) (cs : List Char) : Option String :=
  if !flipB prev cs.head? then none
  else
    (phonePre cs).findSome? (fun r1 =>
      (match r1 with
       | '(' :: r => [r, r1]
       | _ => [r1]).findSome? (fun r2 =>
        (digitsN 3 r2).bind (fun r3 =>
          (match r3 with
           | ')' :: r => [r, r3]
           | _ => [r3]).findSome? (fun r4 =>
            (sepOpt r4).findSome? (fun r5 =>
              (digitsN 3 r5).bind (fun r6 =>
                (sepOpt r6).findSome? (fun r7 =>
                  (digitsN 4 r7).bind (fun r8 =>
                    if isWordOpt r8.head? then none
                    else some (String.mk (cs.take (cs.length - r8.length)))))))))))

/-- Matcher for the second phone pattern (same, without parentheses). -/
def matchPhone2At (prev : Option Char) (cs : List Char) : Option String :=
  if !flipB prev cs.head? then none
  else
    (phonePre cs).findSome? (fun r2 =>
      (digitsN 3 r2).bind (fun r4 =>
        (sepOpt r4).findSome? (fun r5 =>
          (digitsN 3 r5).bind (fun r6 =>
            (sepOpt r6).findSome? (fun r7 =>
              (digitsN 4 r7).bind (fun r8 =>
                if isWordOpt r8.head? then none
                else some (String.mk (cs.take (cs.length - r8.length)))))))))

def isProfileChar (c : Char) : Bool := c.isAlphanum || c = '_' || c = '-'

/-- `(?:linkedin\.com/in/|linkedin\.com/pub/)([A-Za-z0-9_-]+)`, ignorecase. -/
def matchLinkedinAt (_ : Option Char) (cs : List Char) : Option String :=
  let hit : Option (List Char) :=
    match matchCI "linkedin.com/in/".toList cs with
    | some r => some r.2
    | none => (matchCI "linkedin.com/pub/".toList cs).map (·.2)
  hit.bind (fun r =>
    (plusP isProfileChar r).map (fun p => "linkedin.com/in/" ++ String.mk p.1))

/-- `(?:github\.com/)([A-Za-z0-9_-]+)`, ignorecase. -/
def matchGithubAt (_ : Option Char) (cs : List Char) : Option String :=
  (matchCI "github.com/".toList cs).bind
    (fun r =>
      (plusP isProfileChar r.2).map (fun p => "github.com/" ++ String.mk p.1))

/-- `https?://(?:www\.)?([A-Za-z0-9.-]+\.[A-Za-z]{2,})` (case sensitive);
returns the full match. -/
def matchWebsiteAt (_ : Option Char) (cs : List Char) : Option String :=
  (matchCS "http".toList cs).bind (fun r0 =>
    let svs : List (List Char × List Char) :=
      match r0.2 with
      | 's' :: r => [('s' :: [], r), ([], r0.2)]
      | _ => [([], r0.2)]
    svs.findSome? (fun sv =>
      (matchCS "://".toList sv.2).bind (fun r1 =>
        let wvs : List (List Char × List Char) :=
          match matchCS "www.".toList r1.2 with
          | some w => [("www.".toList, w.2), ([], r1.2)]
          | none => [([], r1.2)]
        wvs.findSome? (fun wv =>
          let (dom, r3) := spanP isDomChar wv.2
          if dom.isEmpty then none
          else
            (dotSplits dom).findSome? (fun s =>
              if s.1.isEmpty then none
              else
                let (run, _) := spanP Char.isAlpha (s.2 ++ r3)
                if 2 ≤ run.length then
                  some ("http" ++ String.mk sv.1 ++ "://" ++ String.mk wv.1 ++
                    String.mk s.1 ++ "." ++ String.mk run)
                else none)))))

/-- `_extract_contact_info`: independent regex passes over the whole
document. -/
def extract_contact_info (text : String) : ContactInfo :=
  let cs := text.toList
  let n := cs.length + 1
  let email := scanFirst matchEmailAt n none cs
  let phone :=
    match scanFirst matchPhone1At n none cs with
    | some p => some p
    | none => scanFirst matchPhone2At n none cs
  let linkedin := scanFirst matchLinkedinAt n none cs
  let github := scanFirst matchGithubAt n none cs
  let websiteRaw := scanFirst matchWebsiteAt n none cs
  let website :=
    match websiteRaw with
    | some w =>
      if !strContains w.toLower "linkedin" && !strContains w.toLower "github" then
        some w
      else none
    | none => none
  { email := email, phone := phone, linkedin := linkedin, github := github,
    website := website, address := none }

end CareerCraft

namespace CareerCraft

/-! ## Technology keyword matching (`TECH_PATTERNS`)

Each alternative of `TECH_PATTERNS` is a literal (possibly with one `\s+`
gap), wrapped in `\b ... \b`; the compiled alternation tries alternatives
in source order at each position (ignorecase).  `\b` is evaluated with the
word/non-word-flip rule, preserving quirks such as `C\+\+\b` only matching
when a word character follows the `+`. -/

def techKeywords : List (List String) :=
  [["Python"], ["Java"], ["JavaScript"], ["TypeScript"], ["C++"], ["C#"],
   ["PHP"], ["Ruby"], ["Go"], ["Rust"], ["Swift"], ["Kotlin"], ["Scala"],
   ["R"], ["MATLAB"], ["Perl"],
   ["React"], ["Angular"], ["Vue.js"], ["Node.js"], ["Express"], ["Django"],
   ["Flask"], ["Laravel"], ["Spring"], ["ASP.NET"],
   ["MySQL"], ["PostgreSQL"], ["MongoDB"], ["Redis"], ["SQLite"], ["Oracle"],
   ["SQL", "Server"], ["Cassandra"], ["DynamoDB"],
   ["AWS"], ["Azure"], ["Google", "Cloud"], ["Docker"], ["Kubernetes"],
   ["Jenkins"], ["Git"], ["GitHub"], ["GitLab"], ["CI/CD"],
   ["TensorFlow"], ["PyTorch"], ["Scikit-learn"], ["Pandas"], ["NumPy"],
   ["Apache", "Spark"], ["Hadoop"], ["Tableau"]]

/-- Match a token list (tokens separated by `\s+`) case-insensitively. -/
def matchTokensCI : List String → List Char → Option (List Char × List Char)
  | [], cs => some ([], cs)
  | [tok], cs => matchCI tok.toList cs
  | tok :: toks, cs =>
    (matchCI tok.toList cs).bind (fun r1 =>
      (plusP isPySpace r1.2).bind (fun sp =>
        (matchTokensCI toks sp.2).map (fun r2 =>
          (r1.1 ++ sp.1 ++ r2.1, r2.2))))

def techAtt (prev : Option Char) (cs : List Char) : Option (List Char × List Char) :=
  techKeywords.findSome? (fun kw =>
    (matchTokensCI kw cs).bind (fun r =>
      if flipB prev r.1.head? && flipB r.1.getLast? r.2.head? then some r
      else none))

/-- `self.tech_pattern.findall(text)`. -/
def findTech (text : String) : List String :=
  (scanAll techAtt (text.toList.length + 1) none text.toList).map String.mk

/-! ## Remaining section extractors -/

/-- `_extract_summary`. -/
def extract_summary (summary_text : String) : Option String :=
  if summary_text.isEmpty then none
  else
    let s := pyStrip (String.intercalate " " (pySplitWS summary_text))
    -- strip a leading `(?:professional\s+)?(?:summary|profile|objective)[:.]?\s*`
    let cands := ["professional summary", "professional profile",
      "professional objective", "summary", "profile", "objective"]
    let hit : Option (List Char) :=
      cands.findSome? (fun c => (matchCI c.toList s.toList).map (·.2))
    let s : String :=
      match hit with
      | some rest =>
        let rest2 : List Char :=
          match rest with
          | ':' :: r => r
          | '.' :: r => r
          | r => r
        String.mk (rest2.dropWhile isPySpace)
      | none => s
    if s.length > 20 then some s else none

/-- Split a text on blank-line gaps (`re.split(r'\n\s*\n', text)`),
dropping empty chunks (callers skip them anyway). -/
def splitOnBlank (text : String) : List String :=
  let groups := (text.splitOn "\n").splitOnP (fun l => (pyStrip l).isEmpty)
  (groups.map (fun g => String.intercalate "\n" g)).filter (fun s => !(pyStrip s).isEmpty)

/-- Company-suffix words of the first entry-split heuristic. -/
def companySuffixes : List String :=
  ["Inc", "LLC", "Corp", "Company", "Corporation", "Ltd", "Group",
   "Technologies", "Solutions", "Systems", "Software", "Services"]

/-- Role-title words of the third entry-split heuristic. -/
def roleTitles : List String :=
  ["Engineer", "Developer", "Manager", "Analyst", "Specialist",
   "Consultant", "Director"]

def startsUpper (s : String) : Bool :=
  match s.toList with
  | c :: _ => c.isUpper
  | [] => false

/-- Entry-start heuristics of `_split_experience_entries` (the three
lookahead regexes), approximated at line granularity: a line beginning a
new entry starts with a capital and mentions a company suffix, has a
"Position at Company" shape, or mentions a role title. -/
def expPred1 (line : String) : Bool :=
  startsUpper line && companySuffixes.any (fun w => strContains line w)

def expPred2 (line : String) : Bool :=
  startsUpper line && (strContains line " at " || strContains line " @ ")

def expPred3 (line : String) : Bool :=
  startsUpper line && roleTitles.any (fun w => strContains line w)

/-- Group lines into chunks that start at predicate-satisfying lines. -/
def groupAtPred (p : String → Bool) : List String → List String → List (List String)
  | [], cur => [cur.reverse]
  | l :: rest, cur =>
    if p l && !cur.isEmpty then cur.reverse :: groupAtPred p rest [l]
    else groupAtPred p rest (l :: cur)

/-- `_split_experience_entries`: try the three entry-start heuristics in
order; if none splits, fall back to blank-line gaps. -/
def split_experience_entries (text : String) : List String :=
  let lines := text.splitOn "\n"
  let tryPred (p : String → Bool) : Option (List String) :=
    let chunks := (groupAtPred p lines []).map
      (fun g => pyStrip (String.intercalate "\n" g))
    let chunks := chunks.filter (fun c => !c.isEmpty)
    if chunks.length > 1 then some chunks else none
  match tryPred expPred1 with
  | some cs => cs
  | none =>
    match tryPred expPred2 with
    | some cs => cs
    | none =>
      match tryPred expPred3 with
      | some cs => cs
      | none => (splitOnBlank text).map pyStrip |>.filter (fun c => !c.isEmpty)

/-- A city/state line `^[A-Z][a-z]+,\s+[A-Z]{2}$`. -/
def isCityState (line : String) : Bool :=
  match line.toList with
  | c :: rest =>
    c.isUpper &&
    (let (low, r1) := spanP Char.isLower rest
     !low.isEmpty &&
     (match r1 with
      | ',' :: r2 =>
        let (sp, r3) := spanP isPySpace r2
        !sp.isEmpty && (match r3 with
          | a :: b :: [] => a.isUpper && b.isUpper
          | _ => false)
      | _ => false))
  | [] => false

/-- Does the line contain `\d{4}|present|current` (ignorecase)? -/
def hasDateWord (line : String) : Bool :=
  let cs := line.toList
  (scanFirst (fun _ r =>
    match digitsN 4 r with
    | some _ => some ()
    | none =>
      match matchCI "present".toList r with
      | some _ => some ()
      | none => (matchCI "current".toList r).map (fun _ => ())) (cs.length + 1) none cs).isSome

def isBulletChar (c : Char) : Bool :=
  c = '•' || c = '·' || c = '▪' || c = '▫' || c = '◦' || c = '‣' || c = '⁃'

/-- `re.sub(r'^[•·▪▫◦‣⁃]\s*', '', line)`. -/
def stripBullet (line : String) : String :=
  match line.toList with
  | c :: rest => if isBulletChar c then String.mk (rest.dropWhile isPySpace) else line
  | [] => line

/-- Find a simple year range `(\d{4})\s*[-–]\s*(\d{4}|present|current)`
(the third date regex of `_parse_experience_entry`; the `MM/YYYY` and
`Month YYYY` variants are abstracted away — no claim depends on them). -/
def matchYearRangeAt (_ : Option Char) (cs : List Char) : Option (String × String) :=
  (digitsN 4 cs).bind (fun r1 =>
    let r2 := r1.dropWhile isPySpace
    match r2 with
    | c :: r3 =>
      if c = '-' || c = '–' then
        let r4 := r3.dropWhile isPySpace
        match digitsN 4 r4 with
        | some _ => some (String.mk (cs.take 4), String.mk (r4.take 4))
        | none =>
          match matchCI "present".toList r4 with
          | some m => some (String.mk (cs.take 4), String.mk m.1)
          | none => (matchCI "current".toList r4).map
              (fun m => (String.mk (cs.take 4), String.mk m.1))
      else none
    | [] => none)

def findYearRange (line : String) : Option (String × String) :=
  scanFirst matchYearRangeAt (line.toList.length + 1) none line.toList

/-- First-line split on `\s+at\s+` (ignorecase), pattern 1 of
`_parse_experience_entry`; lazily captures the shortest position. -/
def splitAtWordAux : List Char → List Char → Option (String × String)
  | seenRev, cs =>
    match cs with
    | [] => none
    | c :: rest =>
      match (do
        let (_, r1) ← plusP isPySpace (c :: rest)
        let (_, r2) ← matchCI "at".toList r1
        let (_, r3) ← plusP isPySpace r2
        pure r3 : Option (List Char)) with
      | some r3 =>
        if seenRev.isEmpty then none
        else some (pyStrip (String.mk seenRev.reverse), pyStrip (String.mk r3))
      | none => splitAtWordAux (c :: seenRev) rest

def splitAtWord (line : String) : Option (String × String) :=
  splitAtWordAux [] line.toList

/-- `_parse_experience_entry` (heuristic shape preserved; the company /
position heuristics are approximations of the source regexes — no claim
depends on the extracted values). -/
def parse_experience_entry (entry_text : String) : Option WorkExperience :=
  if entry_text.isEmpty || entry_text.length < 20 then none
  else
    let lines := ((entry_text.splitOn "\n").map pyStrip).filter (fun l => !l.isEmpty)
    match lines with
    | [] => none
    | first :: restLines =>
      let pc : Option String × Option String :=
        match splitAtWord first with
        | some pr => (some pr.1, some pr.2)
        | none =>
          match restLines with
          | second :: _ =>
            if ["inc", "llc", "corp", "company", "ltd", "group"].any
                (fun w => strContains second.toLower w) then
              (some first, some second)
            else
              match first.splitOn " - " with
              | p :: c :: _ => (some (pyStrip p), some (pyStrip c))
              | _ => (some first, none)
          | [] => (none, none)
      let (position, company) := pc
      if company.isNone && position.isNone then none
      else
        let dates := (lines.take 3).findSome? findYearRange
        let locDesc := restLines.foldl
          (fun (acc : Option String × List String) line =>
            if hasDateWord line then acc
            else if isCityState line then (some line, acc.2)
            else
              let cl := stripBullet line
              if !cl.isEmpty && cl.length > 10 then (acc.1, acc.2 ++ [cl]) else acc)
          (none, [])
        some
          { company := company.getD "Unknown Company",
            position := position.getD "Unknown Position",
            start_date := dates.map (·.1),
            end_date := dates.map (·.2),
            location := locDesc.1,
            description := locDesc.2,
            technologies := (findTech (String.intercalate " " lines)).dedup }

/-- `_extract_work_experience`. -/
def extract_work_experience (experience_text : String) : List WorkExperience :=
  if experience_text.isEmpty then []
  else (split_experience_entries experience_text).filterMap parse_experience_entry

end CareerCraft

namespace CareerCraft

/-! ## Education / skills / projects / certifications / languages -/

/-- Degree keyword hit in a line (abbreviating the three degree regexes of
`_extract_education` to their keyword cores — no claim depends on the
extracted degree text). -/
def degreeWords : List String :=
  ["Bachelor", "Master", "PhD", "Doctorate", "Doctor", "Associate",
   "B.S", "M.S", "Ph.D", "M.B.A", "MBA", "B.A"]

def findDegree (line : String) : Option String :=
  degreeWords.findSome? (fun w =>
    if strContains line.toLower w.toLower then some w else none)

/-- `in\s+([A-Za-z\s]+)` — the field-of-study clause. -/
def findFieldOfStudy (line : String) : Option String :=
  let cs := line.toList
  scanFirst (fun _ r =>
    (do
      let (_, r1) ← matchCI "in".toList r
      let (_, r2) ← plusP isPySpace r1
      let (fld, _) := spanP (fun c => c.isAlpha || isPySpace c) r2
      if fld.isEmpty then none else pure (pyStrip (String.mk fld)) :
      Option String)) (cs.length + 1) none cs

/-- First `\b(19|20)\d{2}\b`-style year in a line (word-boundary on the
left is approximated by requiring a non-digit neighbour). -/
def findYear (line : String) : Option String :=
  let cs := line.toList
  scanFirst (fun prev r =>
    match digitsN 4 r with
    | some rest =>
      let d := r.take 4
      if (leadsList ['1', '9'] d || leadsList ['2', '0'] d) &&
          flipB prev d.head? && flipB d.getLast? rest.head? then
        some (String.mk d)
      else none
    | none => none) (cs.length + 1) none cs

/-- `GPA:?\s*([0-9.]+)` (ignorecase). -/
def findGPA (line : String) : Option String :=
  let cs := line.toList
  scanFirst (fun _ r =>
    (do
      let (_, r1) ← matchCI "gpa".toList r
      let r2 : List Char := match r1 with | ':' :: t => t | t => t
      let r3 := r2.dropWhile isPySpace
      let (num, _) := spanP (fun c => c.isDigit || c = '.') r3
      if num.isEmpty then none else pure (String.mk num) :
      Option String)) (cs.length + 1) none cs

/-- `_extract_education`. -/
def extract_education (education_text : String) : List Education :=
  if education_text.isEmpty then []
  else
    (splitOnBlank education_text).filterMap (fun entryRaw =>
      let entry := pyStrip entryRaw
      if entry.isEmpty || entry.length < 10 then none
      else
        let lines := ((entry.splitOn "\n").map pyStrip).filter (fun l => !l.isEmpty)
        let degreeLine := lines.findSome? (fun l =>
          (findDegree l).map (fun d => (l, d)))
        let degree := degreeLine.map (·.2)
        let field_of_study := degreeLine.bind (fun ld => findFieldOfStudy ld.1)
        let institution := lines.find? (fun l =>
          ["university", "college", "institute", "school"].any
            (fun w => strContains l.toLower w))
        let graduation_date := lines.findSome? findYear
        let gpa := lines.findSome? findGPA
        if institution.isSome || degree.isSome then
          some
            { institution := institution.getD "Unknown Institution",
              degree := degree.getD "Unknown Degree",
              field_of_study := field_of_study,
              graduation_date := graduation_date,
              gpa := gpa, location := none }
        else none)

/-- Delimiters of the skills split `[,;|\n•·▪▫◦‣⁃]`. -/
def isSkillDelim (c : Char) : Bool :=
  c = ',' || c = ';' || c = '|' || c = '\n' || isBulletChar c

/-- The fixed soft-skill keyword list of `_extract_skills`. -/
def skillKeywordList : List String :=
  ["Machine Learning", "Data Analysis", "Web Development", "Mobile Development",
   "DevOps", "Cloud Computing", "Database Design", "API Development",
   "Project Management", "Agile", "Scrum", "Leadership", "Team Management"]

/-- `_extract_skills`: delimited tokens from the skills section (length
2–49), plus technology matches over the whole document, plus soft-skill
keywords found case-insensitively anywhere; deduplicated and sorted. -/
def extract_skills (skills_text full_text : String) : List String :=
  let fromSection :=
    if skills_text.isEmpty then []
    else
      (skills_text.split isSkillDelim).filterMap (fun item =>
        let t := pyStrip item
        if !t.isEmpty && t.length > 1 && t.length < 50 then some t else none)
  let fromTech := findTech full_text
  let fromKeywords := skillKeywordList.filter
    (fun kw => strContains full_text.toLower kw.toLower)
  sortStrings ((fromSection ++ fromTech ++ fromKeywords).dedup)

/-- `https?://[^\s]+`. -/
def findUrl (text : String) : Option String :=
  let cs := text.toList
  scanFirst (fun _ r =>
    (do
      let (h, r1) ← matchCS "http".toList r
      let hs : List Char × List Char :=
        match r1 with
        | 's' :: t => (h ++ ['s'], t)
        | _ => (h, r1)
      let (m, r2) ← matchCS "://".toList hs.2
      let (tail, _) ← plusP (fun c => !isPySpace c) r2
      pure (String.mk (hs.1 ++ m ++ tail)) : Option String))
    (cs.length + 1) none cs

/-- `_extract_projects`. -/
def extract_projects (projects_text : String) : List Project :=
  if projects_text.isEmpty then []
  else
    (splitOnBlank projects_text).filterMap (fun entryRaw =>
      let entry := pyStrip entryRaw
      if entry.isEmpty || entry.length < 20 then none
      else
        let lines := ((entry.splitOn "\n").map pyStrip).filter (fun l => !l.isEmpty)
        match lines with
        | [] => none
        | name :: rest =>
          some
            { name := name,
              description :=
                if rest.isEmpty then name else String.intercalate " " rest,
              technologies := (findTech entry).dedup,
              url := findUrl entry })

/-- Delimiters `[,;\n•·▪▫◦‣⁃]` (note: no bar). -/
def isCertDelim (c : Char) : Bool :=
  c = ',' || c = ';' || c = '\n' || isBulletChar c

/-- `_extract_certifications`. -/
def extract_certifications (cert_text : String) : List String :=
  if cert_text.isEmpty then []
  else
    (cert_text.split isCertDelim).filterMap (fun item =>
      let t := pyStrip item
      if !t.isEmpty && t.length > 3 then some t else none)

/-- Delete every `\s*\([^)]*\)` group. -/
def matchParenGroupAt (cs : List Char) : Option (List Char) := do
  let (sp, r1) := spanP isPySpace cs
  match r1 with
  | '(' :: r2 =>
    let (_, r3) := spanP (fun c => c ≠ ')') r2
    match r3 with
    | ')' :: r4 => if sp.length + 1 > 0 then pure r4 else none
    | _ => none
  | _ => none

/-- Delete a trailing `\s*[-–]\s*\w+$` proficiency marker. -/
def stripProficiency (s : String) : String :=
  let rev := s.toList.reverse
  let (w, r1) := spanP isWordChar rev
  if w.isEmpty then s
  else
    let r2 := r1.dropWhile isPySpace
    match r2 with
    | c :: r3 =>
      if c = '-' || c = '–' then String.mk (r3.dropWhile isPySpace).reverse
      else s
    | [] => s

/-- `_extract_languages`. -/
def extract_languages (lang_text : String) : List String :=
  if lang_text.isEmpty then []
  else
    (lang_text.split isCertDelim).filterMap (fun item =>
      let t := String.mk
        (scanRemove matchParenGroupAt item.toList.length item.toList)
      let t := pyStrip t
      let t := pyStrip (stripProficiency t)
      if !t.isEmpty && t.length > 1 then some t else none)

/-! ## `ResumeParser.parse_resume` -/

/-- `parse_resume`: raises `ValueError("Resume text cannot be empty")` when
the input is empty or whitespace-only (`if not text or not text.strip()`),
otherwise cleans the text, partitions it into sections and runs the
section extractors — all of which are total. -/
def parse_resume (text : String) : Except String ParsedResume :=
  if !truthyStr text || !truthyStr (pyStrip text) then
    .error "Resume text cannot be empty"
  else
    let cleaned := clean_text text
    let sections := extract_sections cleaned
    .ok
      { raw_text := text,
        contact_info := extract_contact_info cleaned,
        summary := extract_summary ((alistGet "summary" sections).getD ""),
        work_experience :=
          extract_work_experience ((alistGet "experience" sections).getD ""),
        education := extract_education ((alistGet "education" sections).getD ""),
        skills := extract_skills ((alistGet "skills" sections).getD "") cleaned,
        projects := extract_projects ((alistGet "projects" sections).getD ""),
        certifications :=
          extract_certifications ((alistGet "certifications" sections).getD ""),
        languages := extract_languages ((alistGet "languages" sections).getD ""),
        sections := sections,
        metadata := [] }

end CareerCraft

namespace CareerCraft

/-! ## Orchestrator data model (`backend/services/job_analysis_service.py`) -/

/-- The seven analysis workflow steps, in enum-declaration order. -/
inductive AnalysisStep
  | job_analysis
  | company_research
  | resume_parsing
  | skills_analysis
  | resume_enhancement
  | cover_letter
  | final_review
deriving Repr, DecidableEq

def allSteps : List AnalysisStep :=
  [.job_analysis, .company_research, .resume_parsing, .skills_analysis,
   .resume_enhancement, .cover_letter, .final_review]

/-- Job / step status values. -/
inductive AnalysisStatus
  | pending
  | processing
  | completed
  | failed
  | cancelled
deriving Repr, DecidableEq

/-- One row of the `STEP_CONFIG` table. -/
structure StepConfig where
  step_number : Nat
  step_name : String
  progress_percentage : Nat
deriving Repr, DecidableEq

def STEP_CONFIG : AnalysisStep → StepConfig
  | .job_analysis => ⟨1, "Job Description Analysis", 14⟩
  | .company_research => ⟨2, "Company Research", 28⟩
  | .resume_parsing => ⟨3, "Resume Analysis", 42⟩
  | .skills_analysis => ⟨4, "Skills Gap Analysis", 57⟩
  | .resume_enhancement => ⟨5, "Resume Enhancement", 71⟩
  | .cover_letter => ⟨6, "Cover Letter Generation", 85⟩
  | .final_review => ⟨7, "Final Review & Formatting", 100⟩

/-- Progress tracking record for one step of one job (timestamps are
abstract ticks). -/
structure AnalysisProgress where
  step : AnalysisStep
  step_number : Nat
  step_name : String
  status : AnalysisStatus
  progress_percentage : Nat
  started_at : Option Nat := none
  completed_at : Option Nat := none
  error_message : Option String := none
deriving Repr, DecidableEq

/-- The `preferences` bag (fields the service reads). -/
structure Preferences where
  tone : Option String := none
  focus_areas : Option (List String) := none
deriving Repr, DecidableEq

structure AnalysisRequest where
  session_id : String
  user_id : String
  job_description : String
  job_url : Option String := none
  resume_file_id : Option String := none
  resume_text : Option String := none
  preferences : Preferences := {}
deriving Repr, DecidableEq

/-- The slice of `SessionData` consumed by `start_analysis`. -/
structure SessionData where
  session_id : String
  user_id : Option String := none
deriving Repr, DecidableEq

/-- A `ClaudeResult` as returned by the Claude client. -/
structure ClaudeResult where
  response_text : String
  usage_tokens : Int
  processing_time : ℚ
deriving Repr, DecidableEq

/-- A JSON value under a `requirements` key: the service distinguishes
only `isinstance(x, list)` from everything else (rendered via `str`). -/
inductive ReqVal
  | listv (items : List String)
  | strv (s : String)
deriving Repr, DecidableEq

/-- Fields the service reads from a successfully `json.loads`-parsed
job-analysis response (absent key ↦ `none`). -/
structure JobAnalysisFields where
  job_title : Option String := none
  company_name : Option String := none
  requirements : Option ReqVal := none
  keywords : Option (List String) := none
  industry : Option String := none
deriving Repr, DecidableEq

/-- Fields read from a parsed company-research response. -/
structure CompanyFields where
  company_name : Option String := none
  research_summary : Option String := none
  industry : Option String := none
  culture_insights : Option (List String) := none
deriving Repr, DecidableEq

/-- Fields read from a parsed skills-gap response. -/
structure SkillsFields where
  missing_skills : Option (List String) := none
deriving Repr, DecidableEq

/-- Fields read from a parsed resume-recommendations response. -/
structure RecFields where
  improvements : Option (List String) := none
deriving Repr, DecidableEq

/-- Outcomes of the external generative capability for the five Claude
calls of one run.  A call either throws (`.error e`, modelling any
`ClaudeAPIError` or transport exception) or returns a `ClaudeResult`
paired with the outcome of `json.loads` on its `response_text` (`none`
models a `JSONDecodeError`, `some f` the fields the service reads). -/
structure Env where
  analyze_job_description : Except String (ClaudeResult × Option JobAnalysisFields)
  research_company : Except String (ClaudeResult × Option CompanyFields)
  analyze_skills_gap : Except String (ClaudeResult × Option SkillsFields)
  analyze_resume : Except String (ClaudeResult × Option RecFields)
  generate_cover_letter : Except String ClaudeResult
deriving Repr

/-! ## Step result payloads -/

/-- Step-1 result dict (fields the code ever writes or reads, plus its
`_metadata`). -/
structure JobAnalysisPayload where
  job_title : Option String := none
  company_name : Option String := none
  requirements : Option ReqVal := none
  keywords : Option (List String) := none
  industry : Option String := none
  raw_analysis : Option String := none
  tokens_used : Int
  processing_time : ℚ
  analysis_quality : String
deriving Repr, DecidableEq

/-- Step-2 result dict plus its `_metadata`. -/
structure CompanyResearchPayload where
  company_name : Option String := none
  research_summary : Option String := none
  industry : Option String := none
  culture_insights : Option (List String) := none
  research_method : String
  company_identified : Option Bool := none
  error : Option String := none
deriving Repr, DecidableEq

/-- The fixed placeholder dict produced by step 3 for file uploads. -/
structure FilePlaceholder where
  source : String
  file_id : String
  parsing_method : String
  content : String
deriving Repr, DecidableEq

/-- Step-3 `_metadata`. -/
structure ParseMeta where
  parsing_method : String
  sections_detected : Nat
  work_experiences : Nat
  skills_extracted : Nat
deriving Repr, DecidableEq

/-- Step-3 result dict: either the file placeholder (which has NO
contact/experience/skills keys) or the converted `ParsedResume`. -/
inductive ParsedResumePayload
  | fromFile (p : FilePlaceholder) (meta : ParseMeta)
  | fromText (d : ParsedResume) (meta : ParseMeta)
deriving Repr, DecidableEq

/-- `parsed_resume.get("skills", [])`. -/
def prSkills : ParsedResumePayload → List String
  | .fromFile _ _ => []
  | .fromText d _ => d.skills

/-- `parsed_resume.get("work_experience", [])`. -/
def prWork : ParsedResumePayload → List WorkExperience
  | .fromFile _ _ => []
  | .fromText d _ => d.work_experience

/-- `parsed_resume.get("education", [])`. -/
def prEducation : ParsedResumePayload → List Education
  | .fromFile _ _ => []
  | .fromText d _ => d.education

/-- `parsed_resume.get("contact_info", {}).get("email")`. -/
def prEmail : ParsedResumePayload → Option String
  | .fromFile _ _ => none
  | .fromText d _ => d.contact_info.email

/-- `parsed_resume.get("contact_info", {}).get("phone")`. -/
def prPhone : ParsedResumePayload → Option String
  | .fromFile _ _ => none
  | .fromText d _ => d.contact_info.phone

/-- `parsed_resume.get("contact_info", {}).get("email", default)` as it
renders inside an f-string: for a text-parsed resume the `email` key is
always present (possibly `None`, rendering as `"None"`); for the file
placeholder the `contact_info` key is absent, so the default is used. -/
def prEmailDisplay (default : String) : ParsedResumePayload → String
  | .fromFile _ _ => default
  | .fromText d _ => pyShowOpt d.contact_info.email

/-- Step-4 result dict. -/
structure SkillsAnalysisPayload where
  current_skills : Option (List String) := none
  analysis_summary : Option String := none
  missing_skills : Option (List String) := none
  skill_gaps : Option (List String) := none
  skills_analyzed : Nat
  tokens_used : Int
deriving Repr, DecidableEq

/-- Step-5 result dict. -/
structure ResumeRecPayload where
  overall_score : Option ℚ := none
  recommendations : Option String := none
  improvements : Option (List String) := none
  skills_gap_insights : List String
  tokens_used : Int
deriving Repr, DecidableEq

/-- Step-6 result dict. -/
structure CoverLetterPayload where
  content : String
  tone : String
  focus_areas : List String
  word_count : Nat
  generated_at : Nat
  tokens_used : Int
  processing_time : ℚ
deriving Repr, DecidableEq

/-- Step-7 result dict (`final_summary`), flattened. -/
structure FinalSummaryPayload where
  job_match_score : ℚ
  job_title : String
  company : String
  skills_match : String
  experience_level : String
  cover_letter_generated : Bool
  top_priorities : List String
  skills_to_develop : List String
  application_strength : String
  next_steps : List String
  total_steps_completed : Nat
deriving Repr, DecidableEq

/-- The stored `AnalysisResult`. -/
structure AnalysisResult where
  session_id : String
  request : AnalysisRequest
  job_analysis : JobAnalysisPayload
  company_research : CompanyResearchPayload
  parsed_resume : ParsedResumePayload
  skills_analysis : SkillsAnalysisPayload
  resume_recommendations : ResumeRecPayload
  cover_letter : CoverLetterPayload
  final_summary : FinalSummaryPayload
  analysis_id : String
  total_processing_time : Int
  steps_completed : Nat
  claude_api_calls : Nat
  created_at : Nat
  completed_at : Option Nat := none
deriving Repr, DecidableEq

/-- One entry of `self.active_jobs`. -/
structure JobRecord where
  request : AnalysisRequest
  status : AnalysisStatus
  current_step : Option AnalysisStep := none
  started_at : Nat
  updated_at : Nat
  error : Option String := none
deriving Repr, DecidableEq

/-- The service's in-memory stores (`active_jobs`, `job_progress`,
`job_results`), plus an instrumentation log of the external calls issued
(used to express "never invokes the text-extraction capability"). -/
structure ServiceState where
  active_jobs : List (String × JobRecord) := []
  job_progress : List (String × List AnalysisProgress) := []
  job_results : List (String × AnalysisResult) := []
  calls : List String := []
deriving Repr, DecidableEq

end CareerCraft

namespace CareerCraft

/-! ## `_update_step_status` and helpers -/

/-- Update the matching progress entry (first match, then `break`).
Timestamps follow the source: `processing` sets `started_at`;
`completed`/`failed` set `completed_at`; the error message is recorded
only when truthy (`if error_message:`). -/
def updateProgressEntry (step : AnalysisStep) (status : AnalysisStatus)
    (err : Option String) (t : Nat) :
    List AnalysisProgress → List AnalysisProgress
  | [] => []
  | p :: rest =>
    if p.step = step then
      { p with
        status := status,
        started_at := if status = .processing then some t else p.started_at,
        completed_at :=
          if status = .completed ∨ status = .failed then some t else p.completed_at,
        error_message := if truthyOpt err then err else p.error_message } :: rest
    else p :: updateProgressEntry step status err t rest

/-- `_update_step_status`: update the step's progress record (when the job
has one) and the job's `current_step` / `updated_at` (when the job
exists). -/
def update_step_status (aid : String) (step : AnalysisStep)
    (status : AnalysisStatus) (err : Option String) (t : Nat)
    (s : ServiceState) : ServiceState :=
  { s with
    job_progress :=
      alistModify aid (updateProgressEntry step status err t) s.job_progress,
    active_jobs :=
      alistModify aid (fun j => { j with current_step := some step, updated_at := t })
        s.active_jobs }

/-- Record an external call (instrumentation only; no Python counterpart
beyond the call expression itself). -/
def logCall (name : String) (s : ServiceState) : ServiceState :=
  { s with calls := s.calls ++ [name] }

/-! ## Step executors -/

/-- `_execute_step_1_job_analysis`. -/
def execute_step_1_job_analysis (env : Env) (aid : String)
    (_req : AnalysisRequest) (t : Nat) (s : ServiceState) :
    ServiceState × Except String JobAnalysisPayload :=
  let s := update_step_status aid .job_analysis .processing none t s
  let s := logCall "analyze_job_description" s
  match env.analyze_job_description with
  | .error e =>
    (update_step_status aid .job_analysis .failed (some e) t s,
     .error ("Job analysis failed: " ++ e))
  | .ok (cr, parsed) =>
    let quality := if cr.usage_tokens > 200 then "high" else "medium"
    let base : JobAnalysisPayload :=
      match parsed with
      | some f =>
        { job_title := f.job_title, company_name := f.company_name,
          requirements := f.requirements, keywords := f.keywords,
          industry := f.industry, raw_analysis := none,
          tokens_used := cr.usage_tokens, processing_time := cr.processing_time,
          analysis_quality := quality }
      | none =>
        { job_title := some "Position Title Not Extracted",
          company_name := some "Company Not Identified",
          requirements :=
            some (.listv ["Analysis completed but structured data unavailable"]),
          keywords := some [], industry := none,
          raw_analysis := some cr.response_text,
          tokens_used := cr.usage_tokens, processing_time := cr.processing_time,
          analysis_quality := quality }
    (update_step_status aid .job_analysis .completed none t s, .ok base)

/-- The sentinel payload returned when the Company Research call throws. -/
def step2_sentinel (e : String) : CompanyResearchPayload :=
  { company_name := some "Research failed",
    research_summary := some ("Company research encountered an error: " ++ e),
    industry := some "Unknown",
    culture_insights := some [],
    research_method := "failed",
    company_identified := none,
    error := some e }

/-- `_execute_step_2_company_research`: the one degrade-not-fail step —
its return type is NOT `Except`; every exception from the external call
is caught locally, the step's own progress is marked failed, and the
sentinel payload is returned. -/
def execute_step_2_company_research (env : Env) (aid : String)
    (_req : AnalysisRequest) (ja : JobAnalysisPayload) (t : Nat)
    (s : ServiceState) : ServiceState × CompanyResearchPayload :=
  let s := update_step_status aid .company_research .processing none t s
  let company_name := ja.company_name.getD "Unknown Company"
  let method :=
    if company_name ≠ "Unknown Company" then "claude_api" else "fallback"
  let identified := company_name ≠ "Unknown Company"
  if truthyStr company_name && company_name != "Unknown Company" then
    let s := logCall "research_company" s
    match env.research_company with
    | .error e =>
      (update_step_status aid .company_research .failed (some e) t s,
       step2_sentinel e)
    | .ok (cr, parsed) =>
      let base : CompanyResearchPayload :=
        match parsed with
        | some f =>
          { company_name := f.company_name,
            research_summary := f.research_summary,
            industry := f.industry, culture_insights := f.culture_insights,
            research_method := method, company_identified := some identified,
            error := none }
        | none =>
          { company_name := some company_name,
            research_summary := some cr.response_text,
            industry := some "Not identified",
            culture_insights :=
              some ["Research completed but structured data unavailable"],
            research_method := method, company_identified := some identified,
            error := none }
      (update_step_status aid .company_research .completed none t s, base)
  else
    let base : CompanyResearchPayload :=
      { company_name := some "Not specified",
        research_summary :=
          some "Company name not clearly identified in job posting",
        industry := some "Unknown",
        culture_insights :=
          some ["Company research requires identifiable company name"],
        research_method := method, company_identified := some identified,
        error := none }
    (update_step_status aid .company_research .completed none t s, base)

/-- `_execute_step_3_resume_parsing`: a file reference takes priority and
yields the fixed placeholder without ever calling the parser; otherwise
the raw text is parsed (which can raise); with neither, the step raises
`"No resume data provided"`. -/
def execute_step_3_resume_parsing (aid : String) (req : AnalysisRequest)
    (t : Nat) (s : ServiceState) :
    ServiceState × Except String ParsedResumePayload :=
  let s := update_step_status aid .resume_parsing .processing none t s
  if truthyOpt req.resume_file_id then
    let p : FilePlaceholder :=
      { source := "file_upload",
        file_id := req.resume_file_id.getD "",
        parsing_method := "file_service",
        content := "File parsing integration pending - requires file tracking system" }
    let meta : ParseMeta :=
      { parsing_method := "advanced_parser", sections_detected := 0,
        work_experiences := 0, skills_extracted := 0 }
    (update_step_status aid .resume_parsing .completed none t s,
     .ok (.fromFile p meta))
  else if truthyOpt req.resume_text then
    let s := logCall "parse_resume" s
    match parse_resume (req.resume_text.getD "") with
    | .error e =>
      (update_step_status aid .resume_parsing .failed (some e) t s,
       .error ("Resume parsing failed: " ++ e))
    | .ok d =>
      let meta : ParseMeta :=
        { parsing_method := "advanced_parser",
          sections_detected := d.sections.length,
          work_experiences := d.work_experience.length,
          skills_extracted := d.skills.length }
      (update_step_status aid .resume_parsing .completed none t s,
       .ok (.fromText d meta))
  else
    (update_step_status aid .resume_parsing .failed
      (some "No resume data provided") t s,
     .error "Resume parsing failed: No resume data provided")

/-- `"; ".join(...)` over the `requirements` value (list vs str). -/
def reqJoin (r : Option ReqVal) : String :=
  match r with
  | none => ""
  | some (.listv l) => String.intercalate "; " l
  | some (.strv v) => v

/-- `str(job_analysis.get("requirements", "No specific requirements identified"))`. -/
def reqStr (r : Option ReqVal) : String :=
  match r with
  | none => "No specific requirements identified"
  | some (.listv l) => pyReprList l
  | some (.strv v) => v

/-- `_execute_step_4_skills_analysis`. -/
def execute_step_4_skills_analysis (env : Env) (aid : String)
    (_req : AnalysisRequest) (ja : JobAnalysisPayload)
    (pr : ParsedResumePayload) (t : Nat) (s : ServiceState) :
    ServiceState × Except String SkillsAnalysisPayload :=
  let s := update_step_status aid .skills_analysis .processing none t s
  let current_skills := prSkills pr
  let _job_requirements_text := reqJoin ja.requirements
  let _industry := ja.industry.getD "Technology"
  let s := logCall "analyze_skills_gap" s
  match env.analyze_skills_gap with
  | .error e =>
    (update_step_status aid .skills_analysis .failed (some e) t s,
     .error ("Skills analysis failed: " ++ e))
  | .ok (cr, parsed) =>
    let base : SkillsAnalysisPayload :=
      match parsed with
      | some f =>
        { missing_skills := f.missing_skills,
          skills_analyzed := current_skills.length,
          tokens_used := cr.usage_tokens }
      | none =>
        { current_skills := some current_skills,
          analysis_summary := some cr.response_text,
          missing_skills := some [],
          skill_gaps := some ["Analysis completed but structured data unavailable"],
          skills_analyzed := current_skills.length,
          tokens_used := cr.usage_tokens }
    (update_step_status aid .skills_analysis .completed none t s, .ok base)

/-- The `resume_summary` f-string of step 5 (indentation elided). -/
def resume_summary_step5 (pr : ParsedResumePayload) : String :=
  "Contact: " ++ prEmailDisplay "Not provided" pr ++ "\n" ++
  "Skills: " ++ String.intercalate ", " ((prSkills pr).take 10) ++ "\n" ++
  "Experience: " ++ toString (prWork pr).length ++ " positions\n" ++
  "Education: " ++ toString (prEducation pr).length ++ " entries"

/-- The part of `_execute_step_5_resume_enhancement` from the prompt
build and the external call onward (i.e. after its initial
`_update_step_status(..., PROCESSING)`; the split marks the await point
of the Claude call, where a cancellation may interleave). -/
def step5_rest (env : Env) (aid : String) (ja : JobAnalysisPayload)
    (pr : ParsedResumePayload) (sa : SkillsAnalysisPayload) (t : Nat)
    (s : ServiceState) : ServiceState × Except String ResumeRecPayload :=
  let _resume_content := resume_summary_step5 pr
  let _job_requirements_text := reqStr ja.requirements
  let s := logCall "analyze_resume" s
  match env.analyze_resume with
  | .error e =>
    (update_step_status aid .resume_enhancement .failed (some e) t s,
     .error ("Resume enhancement failed: " ++ e))
  | .ok (cr, parsed) =>
    let base : ResumeRecPayload :=
      match parsed with
      | some f =>
        { improvements := f.improvements,
          skills_gap_insights := sa.missing_skills.getD [],
          tokens_used := cr.usage_tokens }
      | none =>
        { overall_score := some 7,
          recommendations := some cr.response_text,
          improvements := some ["Analysis completed but structured data unavailable"],
          skills_gap_insights := sa.missing_skills.getD [],
          tokens_used := cr.usage_tokens }
    (update_step_status aid .resume_enhancement .completed none t s, .ok base)

/-- `_execute_step_5_resume_enhancement`. -/
def execute_step_5_resume_enhancement (env : Env) (aid : String)
    (ja : JobAnalysisPayload) (pr : ParsedResumePayload)
    (sa : SkillsAnalysisPayload) (t : Nat) (s : ServiceState) :
    ServiceState × Except String ResumeRecPayload :=
  step5_rest env aid ja pr sa t
    (update_step_status aid .resume_enhancement .processing none t s)

/-- `_execute_step_6_cover_letter`. -/
def execute_step_6_cover_letter (env : Env) (aid : String)
    (req : AnalysisRequest) (crp : CompanyResearchPayload)
    (pr : ParsedResumePayload) (t : Nat) (s : ServiceState) :
    ServiceState × Except String CoverLetterPayload :=
  let s := update_step_status aid .cover_letter .processing none t s
  let _company_info :=
    "Company: " ++ (crp.company_name.getD "Company name not identified") ++ "\n" ++
    "Industry: " ++ (crp.industry.getD "Not specified") ++ "\n" ++
    "Research Summary: " ++
      (crp.research_summary.getD "Limited company information available").take 500
  let _resume_summary :=
    "Name: " ++ prEmailDisplay "Candidate" pr ++ "\n" ++
    "Experience: " ++ toString (prWork pr).length ++ " positions\n" ++
    "Key Skills: " ++ String.intercalate ", " ((prSkills pr).take 8) ++ "\n" ++
    "Education: " ++ toString (prEducation pr).length ++ " degrees/certifications"
  let tone := req.preferences.tone.getD "professional"
  let focus_areas :=
    req.preferences.focus_areas.getD ["relevant experience", "technical skills"]
  let s := logCall "generate_cover_letter" s
  match env.generate_cover_letter with
  | .error e =>
    (update_step_status aid .cover_letter .failed (some e) t s,
     .error ("Cover letter generation failed: " ++ e))
  | .ok cres =>
    let payload : CoverLetterPayload :=
      { content := cres.response_text, tone := tone, focus_areas := focus_areas,
        word_count := (pySplitWS cres.response_text).length,
        generated_at := t, tokens_used := cres.usage_tokens,
        processing_time := cres.processing_time }
    (update_step_status aid .cover_letter .completed none t s, .ok payload)

end CareerCraft

namespace CareerCraft

/-! ## Job match score and step 7 -/

/-- `_calculate_job_match_score`: weighted sum over exact rationals
(0.4 skills overlap, 0.3/0.2 experience bucket, 0.2 education, 0.1
contact completeness), capped at 1.  Python `set(...)` becomes
`Finset`; the body is total, so the source's defensive
`except: return 0.5` is dead. -/
def calculate_job_match_score (ja : JobAnalysisPayload)
    (pr : ParsedResumePayload) (_sa : SkillsAnalysisPayload) : ℚ :=
  let resume_skills : Finset String := (prSkills pr).toFinset
  let job_keywords : Finset String := (ja.keywords.getD []).toFinset
  let score : ℚ := 0
  let score :=
    if job_keywords.card ≠ 0 then
      score + ((resume_skills ∩ job_keywords).card : ℚ) / (job_keywords.card : ℚ) * 0.4
    else score
  let experience_count := (prWork pr).length
  let score :=
    if experience_count ≥ 3 then score + 0.3
    else if experience_count ≥ 1 then score + 0.2
    else score
  let education_count := (prEducation pr).length
  let score := if education_count ≥ 1 then score + 0.2 else score
  let contact_fields : ℚ :=
    (if truthyOpt (prEmail pr) then 1 else 0) +
    (if truthyOpt (prPhone pr) then 1 else 0)
  let score := score + contact_fields / 2 * 0.1
  min score 1

/-- `_assess_application_strength`. -/
def assess_application_strength (ja : JobAnalysisPayload)
    (pr : ParsedResumePayload) (sa : SkillsAnalysisPayload) : String :=
  let match_score := calculate_job_match_score ja pr sa
  if match_score ≥ 0.8 then "Strong - Excellent match for this position"
  else if match_score ≥ 0.6 then "Good - Solid candidate with some areas to strengthen"
  else if match_score ≥ 0.4 then "Moderate - Some relevant qualifications, needs improvement"
  else "Developing - Significant skill gaps to address"

/-- `_count_claude_calls` (a stub in the source: always 5). -/
def count_claude_calls (_aid : String) : Nat := 5

def nextStepsList : List String :=
  ["Review and implement resume recommendations",
   "Customize cover letter for specific application",
   "Prepare for interviews based on job requirements",
   "Consider developing identified missing skills"]

/-- `_execute_step_7_final_review`: pure aggregation, no external call. -/
def execute_step_7_final_review (aid : String) (_req : AnalysisRequest)
    (ja : JobAnalysisPayload) (crp : CompanyResearchPayload)
    (pr : ParsedResumePayload) (sa : SkillsAnalysisPayload)
    (rr : ResumeRecPayload) (cl : CoverLetterPayload) (t : Nat)
    (s : ServiceState) : ServiceState × Except String FinalSummaryPayload :=
  let s := update_step_status aid .final_review .processing none t s
  let fs : FinalSummaryPayload :=
    { job_match_score := calculate_job_match_score ja pr sa,
      job_title := ja.job_title.getD "Position not identified",
      company := crp.company_name.getD "Company not identified",
      skills_match := toString (prSkills pr).length ++ " skills identified",
      experience_level := toString (prWork pr).length ++ " positions",
      cover_letter_generated := cl.word_count != 0,
      top_priorities := (rr.improvements.getD ["No specific recommendations"]).take 3,
      skills_to_develop := (sa.missing_skills.getD []).take 5,
      application_strength := assess_application_strength ja pr sa,
      next_steps := nextStepsList,
      total_steps_completed := 7 }
  (update_step_status aid .final_review .completed none t s, .ok fs)

/-- The step-7 summary payload as a single opaque value (keeps proof
terms small; identical to the record built inline by
`_execute_step_7_final_review`). -/
def step7_payload (ja : JobAnalysisPayload) (crp : CompanyResearchPayload)
    (pr : ParsedResumePayload) (sa : SkillsAnalysisPayload)
    (rr : ResumeRecPayload) (cl : CoverLetterPayload) : FinalSummaryPayload :=
  { job_match_score := calculate_job_match_score ja pr sa,
    job_title := ja.job_title.getD "Position not identified",
    company := crp.company_name.getD "Company not identified",
    skills_match := toString (prSkills pr).length ++ " skills identified",
    experience_level := toString (prWork pr).length ++ " positions",
    cover_letter_generated := cl.word_count != 0,
    top_priorities := (rr.improvements.getD ["No specific recommendations"]).take 3,
    skills_to_develop := (sa.missing_skills.getD []).take 5,
    application_strength := assess_application_strength ja pr sa,
    next_steps := nextStepsList,
    total_steps_completed := 7 }

theorem execute_step_7_eq (aid : String) (req : AnalysisRequest)
    (ja : JobAnalysisPayload) (crp : CompanyResearchPayload)
    (pr : ParsedResumePayload) (sa : SkillsAnalysisPayload)
    (rr : ResumeRecPayload) (cl : CoverLetterPayload) (t : Nat)
    (s : ServiceState) :
    execute_step_7_final_review aid req ja crp pr sa rr cl t s =
      (update_step_status aid .final_review .completed none t
        (update_step_status aid .final_review .processing none t s),
       .ok (step7_payload ja crp pr sa rr cl)) := rfl

/-! ## `_process_analysis` -/

/-- The failure arm of `_process_analysis`: set the job failed with the
error, and mark the first currently-`processing` progress entry failed
(loop with `break`). -/
def markProcessingFailed (e : String) (t : Nat) :
    List AnalysisProgress → List AnalysisProgress
  | [] => []
  | p :: rest =>
    if p.status = .processing then
      { p with
        status := .failed,
        error_message := some e,
        completed_at := some t } :: rest
    else p :: markProcessingFailed e t rest

def fail_job (aid : String) (e : String) (t : Nat) (s : ServiceState) :
    ServiceState :=
  { s with
    active_jobs :=
      alistModify aid
        (fun j => { j with status := .failed, error := some e, updated_at := t })
        s.active_jobs,
    job_progress := alistModify aid (markProcessingFailed e t) s.job_progress }

/-- The success tail of `_process_analysis`: build the `AnalysisResult`,
store it, and mark the job completed. -/
def finalize_success (aid : String) (req : AnalysisRequest)
    (ja : JobAnalysisPayload) (crp : CompanyResearchPayload)
    (pr : ParsedResumePayload) (sa : SkillsAnalysisPayload)
    (rr : ResumeRecPayload) (cl : CoverLetterPayload)
    (fs : FinalSummaryPayload) (startedAt t : Nat) (s : ServiceState) :
    ServiceState :=
  let result : AnalysisResult :=
    { session_id := req.session_id, request := req, job_analysis := ja,
      company_research := crp, parsed_resume := pr, skills_analysis := sa,
      resume_recommendations := rr, cover_letter := cl, final_summary := fs,
      analysis_id := aid,
      total_processing_time := (t : Int) - (startedAt : Int),
      steps_completed := 7, claude_api_calls := count_claude_calls aid,
      created_at := startedAt, completed_at := some t }
  { s with
    job_results := alistSet aid result s.job_results,
    active_jobs :=
      alistModify aid (fun j => { j with status := .completed, updated_at := t })
        s.active_jobs }

/-- The `job["status"] = PROCESSING; job["updated_at"] = now` prologue of
`_process_analysis`. -/
def set_job_processing (aid : String) (t : Nat) (s : ServiceState) :
    ServiceState :=
  { s with
    active_jobs :=
      alistModify aid
        (fun j => { j with status := .processing, updated_at := t })
        s.active_jobs }

/-- `_process_analysis`: run steps 1–7 strictly in order with early exit;
any raised `JobAnalysisError` lands in the broad `except`, which marks
the job failed.  A missing job id would raise `KeyError` into the same
handler (whose updates on the `.get(aid, {})` throwaway dict are lost,
except the progress marking). -/
def process_analysis (env : Env) (aid : String) (t : Nat)
    (s : ServiceState) : ServiceState :=
  match alistGet aid s.active_jobs with
  | none => fail_job aid aid t s
  | some job =>
    let req := job.request
    let s := set_job_processing aid t s
    match execute_step_1_job_analysis env aid req t s with
    | (s, .error e) => fail_job aid e t s
    | (s, .ok ja) =>
      let r2 := execute_step_2_company_research env aid req ja t s
      let s := r2.1
      let crp := r2.2
      match execute_step_3_resume_parsing aid req t s with
        | (s, .error e) => fail_job aid e t s
        | (s, .ok pr) =>
          match execute_step_4_skills_analysis env aid req ja pr t s with
          | (s, .error e) => fail_job aid e t s
          | (s, .ok sa) =>
            match execute_step_5_resume_enhancement env aid ja pr sa t s with
            | (s, .error e) => fail_job aid e t s
            | (s, .ok rr) =>
              match execute_step_6_cover_letter env aid req crp pr t s with
              | (s, .error e) => fail_job aid e t s
              | (s, .ok cl) =>
                match execute_step_7_final_review aid req ja crp pr sa rr cl t s with
                | (s, .error e) => fail_job aid e t s
                | (s, .ok fs) =>
                  finalize_success aid req ja crp pr sa rr cl fs job.started_at t s

end CareerCraft

namespace CareerCraft

/-! ## Query operations -/

/-- The dictionary returned by `get_progress` (fields the service
computes). -/
structure ProgressSnapshot where
  analysis_id : String
  status : AnalysisStatus
  overall_progress : Nat
  current_step : Option AnalysisProgress
  steps : List AnalysisProgress
  started_at : Nat
  updated_at : Nat
  error : Option String
deriving Repr, DecidableEq

def countCompleted (l : List AnalysisProgress) : Nat :=
  (l.filter (fun p => p.status == AnalysisStatus.completed)).length

/-- `get_progress`.  The overall percentage is the source's
`int((completed_steps / total_steps) * 100)`; for the list lengths that
occur in this service (0 or 7 progress records, completed count 0–7) the
float expression truncates to exactly `completed * 100 / total` in
integer division, which is how it is modelled. -/
def get_progress (aid : String) (s : ServiceState) : Option ProgressSnapshot :=
  match alistGet aid s.active_jobs with
  | none => none
  | some job =>
    let progress_list := (alistGet aid s.job_progress).getD []
    let completed_steps := countCompleted progress_list
    let total_steps := progress_list.length
    let overall :=
      if total_steps ≠ 0 then completed_steps * 100 / total_steps else 0
    let current_step :=
      match progress_list.find? (fun p => p.status == AnalysisStatus.processing) with
      | some p => some p
      | none =>
        if completed_steps < total_steps then
          progress_list.find? (fun p => p.status == AnalysisStatus.pending)
        else none
    some
      { analysis_id := aid, status := job.status, overall_progress := overall,
        current_step := current_step, steps := progress_list,
        started_at := job.started_at, updated_at := job.updated_at,
        error := job.error }

/-- `get_result`: plain dictionary lookup — there is no status check, but
a result is only ever stored by `finalize_success`. -/
def get_result (aid : String) (s : ServiceState) : Option AnalysisResult :=
  alistGet aid s.job_results

/-- Mark the first currently-`processing` progress entry cancelled
(loop with `break`; no error message is written). -/
def markProcessingCancelled (t : Nat) :
    List AnalysisProgress → List AnalysisProgress
  | [] => []
  | p :: rest =>
    if p.status = .processing then
      { p with
        status := .cancelled,
        completed_at := some t } :: rest
    else p :: markProcessingCancelled t rest

/-- `cancel_analysis`: refuses unknown ids and jobs already
completed/failed; otherwise sets the job cancelled and cancels the
in-flight step's progress record. -/
def cancel_analysis (aid : String) (t : Nat) (s : ServiceState) :
    Bool × ServiceState :=
  match alistGet aid s.active_jobs with
  | none => (false, s)
  | some job =>
    if job.status = .completed ∨ job.status = .failed then (false, s)
    else
      (true,
       { s with
         active_jobs :=
           alistModify aid
             (fun j => { j with status := .cancelled, updated_at := t })
             s.active_jobs,
         job_progress := alistModify aid (markProcessingCancelled t) s.job_progress })

/-- The attribute access `datetime.timedelta(hours=max_age_hours)` at the
top of `cleanup_old_jobs`.  The module imports `from datetime import
datetime, timezone`, so `datetime` names the `datetime.datetime` class,
which has no `timedelta` attribute: the lookup raises `AttributeError`
unconditionally. -/
def datetimeTimedelta (_hours : Nat) : Except String Int :=
  .error "AttributeError: type object datetime.datetime has no attribute timedelta"

def isTerminal (st : AnalysisStatus) : Bool :=
  st == .completed || st == .failed || st == .cancelled

/-- `cleanup_old_jobs`: compute the cutoff (which raises, see
`datetimeTimedelta`), then evict all stale terminal jobs from the three
stores and return the count. -/
def cleanup_old_jobs (max_age_hours : Nat) (now : Nat) (s : ServiceState) :
    Except String (Nat × ServiceState) := do
  let td ← datetimeTimedelta max_age_hours
  let cutoff : Int := (now : Int) - td
  let jobs_to_remove :=
    (s.active_jobs.filter
      (fun kv => decide ((kv.2.updated_at : Int) < cutoff) && isTerminal kv.2.status)).map
      (·.1)
  let s2 := jobs_to_remove.foldl
    (fun st aid =>
      { st with
        active_jobs := alistErase aid st.active_jobs,
        job_progress := alistErase aid st.job_progress,
        job_results := alistErase aid st.job_results }) s
  pure (jobs_to_remove.length, s2)

/-! ## `start_analysis` -/

/-- The seven fresh progress records created by `start_analysis`. -/
def initProgress : List AnalysisProgress :=
  allSteps.map (fun st =>
    let cfg := STEP_CONFIG st
    { step := st, step_number := cfg.step_number, step_name := cfg.step_name,
      status := .pending, progress_percentage := cfg.progress_percentage })

/-- `start_analysis`: validates the job description (≥ 50 characters
after strip) and the presence of at least one resume source, then creates
the job and progress records and schedules the background run (the run
itself is `process_analysis`, applied separately).  `token` stands for
the random `secrets.token_urlsafe(16)`. -/
def start_analysis (sd : SessionData) (job_description : String)
    (job_url resume_file_id resume_text : Option String)
    (preferences : Option Preferences) (token : String) (t : Nat)
    (s : ServiceState) : Except String (String × ServiceState) :=
  if !truthyStr job_description || (pyStrip job_description).length < 50 then
    .error "Job description must be at least 50 characters long"
  else if !truthyOpt resume_file_id && !truthyOpt resume_text then
    .error "Either resume file or resume text must be provided"
  else
    let aid := "analysis_" ++ token
    let req : AnalysisRequest :=
      { session_id := sd.session_id,
        user_id :=
          match sd.user_id with
          | some u => if u.isEmpty then "anonymous" else u
          | none => "anonymous",
        job_description := job_description, job_url := job_url,
        resume_file_id := resume_file_id, resume_text := resume_text,
        preferences := preferences.getD {} }
    let job : JobRecord :=
      { request := req, status := .pending, current_step := none,
        started_at := t, updated_at := t }
    .ok (aid,
      { s with
        active_jobs := alistSet aid job s.active_jobs,
        job_progress := alistSet aid initProgress s.job_progress })

end CareerCraft

namespace CareerCraft

/-! ## Shared helper lemmas and concrete fixtures -/

theorem truthyStr_iff {s : String} : truthyStr s = true ↔ s ≠ "" := by
  simp [truthyStr]

theorem truthyStr_false_iff {s : String} : truthyStr s = false ↔ s = "" := by
  simp [truthyStr]

theorem pyStrip_empty : pyStrip "" = "" := rfl

/-- The status and error message of a given step's progress record. -/
def stepStatusOf (step : AnalysisStep) (l : List AnalysisProgress) :
    Option (AnalysisStatus × Option String) :=
  (l.find? (fun p => p.step == step)).map (fun p => (p.status, p.error_message))

theorem countCompleted_le (l : List AnalysisProgress) :
    countCompleted l ≤ l.length := by
  simpa [countCompleted] using List.length_filter_le _ l

theorem alistGet_modify_self {α : Type} (k : String) (f : α → α)
    (l : List (String × α)) :
    alistGet k (alistModify k f l) = (alistGet k l).map f := by
  induction l with
  | nil => simp [alistGet, alistModify]
  | cons kv rest ih =>
    by_cases h : kv.1 = k
    · simp [alistGet, alistModify, h]
    · simpa [alistGet, alistModify, h] using ih

theorem alistGet_set_self {α : Type} (k : String) (v : α)
    (l : List (String × α)) : alistGet k (alistSet k v l) = some v := by
  induction l with
  | nil => simp [alistGet, alistSet]
  | cons kv rest ih =>
    by_cases h : kv.1 = k
    · simp [alistGet, alistSet, h]
    · simpa [alistGet, alistSet, h] using ih

/-- A fixed session. -/
def sdFix : SessionData := { session_id := "sess1", user_id := some "user1" }

/-- A 60-character job description. -/
def descFix : String := String.mk (List.replicate 60 'x')

/-- An environment in which every external call succeeds with parsed
JSON naming an identifiable company. -/
def envAllOk : Env :=
  { analyze_job_description :=
      .ok (⟨"jr", 300, 1⟩,
        some { job_title := some "Engineer", company_name := some "Acme",
               requirements := some (.listv ["Python"]),
               keywords := some ["Python"], industry := some "Tech" }),
    research_company := .ok (⟨"rr", 100, 1⟩, some { company_name := some "Acme" }),
    analyze_skills_gap := .ok (⟨"sr", 100, 1⟩, some {}),
    analyze_resume := .ok (⟨"rec", 100, 1⟩, some {}),
    generate_cover_letter := .ok ⟨"Dear hiring manager", 100, 1⟩ }

/-- The same environment but with the Company Research call throwing. -/
def envFail2 : Env := { envAllOk with research_company := .error "boom" }

/-- The state after a successful `start_analysis` with a file-upload
resume (so the parser is never needed). -/
def stStart : ServiceState :=
  match start_analysis sdFix descFix none (some "file9") none none "tok" 0 {} with
  | .ok r => r.2
  | .error _ => {}

end CareerCraft

namespace CareerCraft

/-! ## Claim C8 — job-match score -/

/-- The job-match score exactly as the specification words it: weighted
sub-scores `0.4 * overlap` (overlap taken as 0 when there are no job
keywords), experience bucket (`0.3` for ≥ 3 entries, two-thirds of `0.3`
for 1–2 entries, 0 otherwise), `0.2` for any education entry, and
`0.1 *` the fraction of `{email, phone}` present; the total clamped to at
most 1. -/
def jobMatchScoreSpec (ja : JobAnalysisPayload) (pr : ParsedResumePayload) : ℚ :=
  let jk : Finset String := (ja.keywords.getD []).toFinset
  let overlap : ℚ :=
    if jk.card = 0 then 0
    else (((prSkills pr).toFinset ∩ jk).card : ℚ) / (jk.card : ℚ)
  let expTerm : ℚ :=
    if (prWork pr).length ≥ 3 then 0.3
    else if (prWork pr).length ≥ 1 then 2 / 3 * 0.3
    else 0
  let eduTerm : ℚ := if (prEducation pr).length ≥ 1 then 0.2 else 0
  let contactFrac : ℚ :=
    ((if truthyOpt (prEmail pr) then (1 : ℚ) else 0) +
     (if truthyOpt (prPhone pr) then (1 : ℚ) else 0)) / 2
  min (0.4 * overlap + expTerm + eduTerm + 0.1 * contactFrac) 1

/-- C8: for all inputs — including empty keyword and resume field lists —
the job-match score computed by the code equals the specified weighted
sum clamped at 1, and always lies in [0, 1]; the keyword-overlap division
is guarded so no division by zero occurs (division is only taken when
`|job_keywords| ≠ 0`). -/
theorem c8_job_match_score_weighted_and_bounded
    (ja : JobAnalysisPayload) (pr : ParsedResumePayload)
    (sa : SkillsAnalysisPayload) :
    calculate_job_match_score ja pr sa = jobMatchScoreSpec ja pr ∧
    0 ≤ calculate_job_match_score ja pr sa ∧
    calculate_job_match_score ja pr sa ≤ 1 := by
  have heq : calculate_job_match_score ja pr sa = jobMatchScoreSpec ja pr := by
    simp only [calculate_job_match_score, jobMatchScoreSpec]
    split_ifs <;> first
      | rfl
      | omega
      | (congr 1; ring)
  have hnonneg : 0 ≤ jobMatchScoreSpec ja pr := by
    simp only [jobMatchScoreSpec]
    refine le_min ?_ (by norm_num)
    refine add_nonneg (add_nonneg (add_nonneg ?_ ?_) ?_) ?_
    · refine mul_nonneg (by norm_num) ?_
      split <;> positivity
    · split_ifs <;> norm_num
    · split_ifs <;> norm_num
    · refine mul_nonneg (by norm_num) ?_
      refine div_nonneg (add_nonneg ?_ ?_) (by norm_num) <;>
        (split_ifs <;> norm_num)
  have hle : jobMatchScoreSpec ja pr ≤ 1 := by
    simp only [jobMatchScoreSpec]
    exact min_le_right _ _
  exact ⟨heq, heq ▸ hnonneg, heq ▸ hle⟩

/-! ## Claim C9 — parser empty-input guard -/

/-- C9: `parse_resume` raises the validation error exactly on empty or
whitespace-only input (`text.strip() == ""` covers both, since `not text`
implies an empty strip), and on every other input it returns a
`ParsedResume` structure without raising. -/
theorem c9_parse_resume_empty_guard (text : String) :
    (parse_resume text = .error "Resume text cannot be empty" ↔ pyStrip text = "") ∧
    (pyStrip text ≠ "" → ∃ r : ParsedResume, parse_resume text = .ok r ∧ r.raw_text = text) := by
  have hguard : (!truthyStr text || !truthyStr (pyStrip text)) = true ↔ pyStrip text = "" := by
    constructor
    · intro h
      rcases Bool.or_eq_true_iff.mp h with h1 | h1
      · have : text = "" := by
          simpa [truthyStr] using h1
        simp [this, pyStrip_empty]
      · simpa [truthyStr] using h1
    · intro h
      simp [truthyStr, h]
  constructor
  · constructor
    · intro h
      by_contra hne
      have hcond : (!truthyStr text || !truthyStr (pyStrip text)) = false := by
        cases hc : (!truthyStr text || !truthyStr (pyStrip text)) with
        | false => rfl
        | true => exact absurd (hguard.mp hc) hne
      simp [parse_resume, hcond] at h
    · intro h
      simp [parse_resume, hguard.mpr h]
  · intro h
    have hcond : (!truthyStr text || !truthyStr (pyStrip text)) = false := by
      cases hc : (!truthyStr text || !truthyStr (pyStrip text)) with
      | false => rfl
      | true => exact absurd (hguard.mp hc) h
    simp only [parse_resume, hcond, Bool.false_eq_true, if_false]
    exact ⟨_, rfl, rfl⟩

/-- C9 witness: the guard fires on a whitespace-only input and does not
fire on a plain two-word resume. -/
theorem c9_parse_resume_empty_guard_witness :
    parse_resume " \t\n" = .error "Resume text cannot be empty" ∧
    ∃ r : ParsedResume, parse_resume "John Doe" = .ok r ∧ r.raw_text = "John Doe" := by
  constructor
  · exact (c9_parse_resume_empty_guard " \t\n").1.mpr (by decide)
  · exact (c9_parse_resume_empty_guard "John Doe").2 (by decide)

end CareerCraft

namespace CareerCraft

/-! ## Claim C6 — cleanup -/

/-- C6 (code bug): `cleanup_old_jobs` never reaches its eviction loop —
its first statement evaluates `datetime.timedelta(...)` on the imported
`datetime.datetime` class and raises `AttributeError` unconditionally, so
no call ever returns an eviction count (the repository's own
`test_cleanup_old_jobs` asserts `cleaned_count == 1` and cannot pass). -/
theorem c6_cleanup_always_raises (max_age_hours now : Nat) (s : ServiceState) :
    cleanup_old_jobs max_age_hours now s =
      .error "AttributeError: type object datetime.datetime has no attribute timedelta" :=
  rfl

/-! ## Claim C4 — overall progress formula -/

/-- A fixed request (file-upload resume). -/
def reqFix : AnalysisRequest :=
  { session_id := "sess1", user_id := "user1", job_description := descFix,
    resume_file_id := some "file9" }

def jobRecFix : JobRecord :=
  { request := reqFix, status := .processing, started_at := 0, updated_at := 0 }

/-- A progress list with exactly steps 1 and 2 completed. -/
def plist2of7 : List AnalysisProgress :=
  updateProgressEntry .job_analysis .completed none 1
    (updateProgressEntry .company_research .completed none 1 initProgress)

def state2of7 : ServiceState :=
  { active_jobs := [("a", jobRecFix)], job_progress := [("a", plist2of7)] }

/-- C4 counterexample: with 2 of 7 steps completed, `get_progress`
reports 28, while `round(100 * 2 / 7)` is 29. -/
theorem c4_counterexample_two_completed :
    (get_progress "a" state2of7).map (fun p => p.overall_progress) = some 28 ∧
    pyRoundNat (100 * 2) 7 = 29 ∧ (28 : Nat) ≠ 29 := by
  refine ⟨by decide, by decide, by decide⟩

/-- C4 amended: the overall percentage is the *floor*
`⌊100 · completed / 7⌋` (the source truncates via `int(...)`), not
`round(100 · completed / 7)`; the two agree except when the completed
count is 2, 3 or 6. -/
theorem c4_progress_is_floor_not_round
    (aid : String) (s : ServiceState) (job : JobRecord)
    (plist : List AnalysisProgress)
    (hj : alistGet aid s.active_jobs = some job)
    (hp : alistGet aid s.job_progress = some plist)
    (hlen : plist.length = 7) :
    ∃ snap, get_progress aid s = some snap ∧
      snap.overall_progress = countCompleted plist * 100 / 7 ∧
      (countCompleted plist * 100 / 7 = pyRoundNat (100 * countCompleted plist) 7 ↔
        (countCompleted plist ≠ 2 ∧ countCompleted plist ≠ 3 ∧ countCompleted plist ≠ 6)) := by
  have hle : countCompleted plist ≤ 7 := hlen ▸ countCompleted_le plist
  simp only [get_progress, hj, hp, Option.getD_some]
  refine ⟨_, rfl, ?_, ?_⟩
  · simp [hlen]
  · generalize hc : countCompleted plist = c at hle ⊢
    interval_cases c <;> decide

/-- C4 witness: the amended statement applied at the concrete
two-completed-steps state. -/
theorem c4_progress_is_floor_not_round_witness :
    ∃ snap, get_progress "a" state2of7 = some snap ∧
      snap.overall_progress = countCompleted plist2of7 * 100 / 7 ∧
      (countCompleted plist2of7 * 100 / 7 = pyRoundNat (100 * countCompleted plist2of7) 7 ↔
        (countCompleted plist2of7 ≠ 2 ∧ countCompleted plist2of7 ≠ 3 ∧
         countCompleted plist2of7 ≠ 6)) :=
  c4_progress_is_floor_not_round "a" state2of7 jobRecFix plist2of7
    (by decide) (by decide) (by decide)

end CareerCraft

namespace CareerCraft

/-! ## Claim C7 — start validation -/

def c7Res : Except String (String × ServiceState) :=
  start_analysis sdFix descFix none none (some "x") none "tok" 0 {}

/-- C7 counterexample: a start request with a one-character resume text
(far below 100 characters) is ACCEPTED by `start_analysis`, and the Job
and StepProgress records are created — the orchestrator performs no
100-character resume-content validation. -/
theorem c7_counterexample_short_resume_accepted :
    c7Res.isOk = true ∧
    (c7Res.toOption.map (fun r =>
      (alistGet r.1 r.2.active_jobs).isSome &&
      (alistGet r.1 r.2.job_progress).isSome)) = some true ∧
    ("x" : String).length < 100 := by
  refine ⟨by decide, by decide, by decide⟩

/-- C7 amended: `start_analysis` rejects (before creating any record)
exactly when the stripped job description is shorter than 50 characters,
or when neither a resume file id nor resume text is truthy; it does NOT
enforce any minimum length on the resume text (the 100-character check
lives only in the API layer, `api/analysis.py`).  On acceptance the Job
is created `pending` with the seven fresh `pending` StepProgress
records. -/
theorem c7_validation_characterized (sd : SessionData) (jd : String)
    (ju rf rt : Option String) (prefs : Option Preferences) (tok : String)
    (t : Nat) (s : ServiceState) :
    (start_analysis sd jd ju rf rt prefs tok t s =
        .error "Job description must be at least 50 characters long" ↔
      (pyStrip jd).length < 50) ∧
    (start_analysis sd jd ju rf rt prefs tok t s =
        .error "Either resume file or resume text must be provided" ↔
      (50 ≤ (pyStrip jd).length ∧ truthyOpt rf = false ∧ truthyOpt rt = false)) ∧
    (∀ aid s2, start_analysis sd jd ju rf rt prefs tok t s = .ok (aid, s2) →
      aid = "analysis_" ++ tok ∧
      (alistGet aid s2.active_jobs).map (fun j => j.status) = some .pending ∧
      alistGet aid s2.job_progress = some initProgress ∧
      s2.job_results = s.job_results) := by
  by_cases h1 : (pyStrip jd).length < 50
  · have hcond : (!truthyStr jd || decide ((pyStrip jd).length < 50)) = true := by
      simp [h1]
    refine ⟨?_, ?_, ?_⟩
    · simp [start_analysis, hcond, h1]
    · simp only [start_analysis, hcond, if_true]
      constructor
      · intro h
        exact absurd (Except.error.inj h) (by decide)
      · rintro ⟨h50, -⟩
        omega
    · intro aid s2 h
      simp [start_analysis, hcond] at h
  · have hjd : truthyStr jd = true := by
      rw [truthyStr_iff]
      intro he
      apply h1
      rw [he, pyStrip_empty]
      decide
    have hcond : (!truthyStr jd || decide ((pyStrip jd).length < 50)) = false := by
      simp [hjd, h1]
    by_cases h2 : (!truthyOpt rf && !truthyOpt rt) = true
    · obtain ⟨hrf, hrt⟩ := Bool.and_eq_true_iff.mp h2
      refine ⟨?_, ?_, ?_⟩
      · simp only [start_analysis, hcond, Bool.false_eq_true, if_false, h2, if_true]
        constructor
        · intro h
          exact absurd (Except.error.inj h) (by decide)
        · intro h
          omega
      · simp only [start_analysis, hcond, Bool.false_eq_true, if_false, h2, if_true]
        simp only [Bool.not_eq_true'] at hrf hrt
        simp [hrf, hrt]
        omega
      · intro aid s2 h
        simp [start_analysis, hcond, h2] at h
    · have h2f : (!truthyOpt rf && !truthyOpt rt) = false := by
        cases hx : (!truthyOpt rf && !truthyOpt rt) with
        | false => rfl
        | true => exact absurd hx h2
      refine ⟨?_, ?_, ?_⟩
      · simp [start_analysis, hcond, h2f]
        omega
      · simp only [start_analysis, hcond, Bool.false_eq_true, if_false, h2f]
        constructor
        · intro h
          exact absurd h (by simp)
        · rintro ⟨-, hrf, hrt⟩
          rw [hrf, hrt] at h2f
          simp at h2f
      · intro aid s2 h
        simp only [start_analysis, hcond, Bool.false_eq_true, if_false, h2f,
          Except.ok.injEq, Prod.mk.injEq] at h
        obtain ⟨haid, hs2⟩ := h
        subst haid
        subst hs2
        refine ⟨rfl, ?_, ?_, rfl⟩ <;> simp [alistGet_set_self]

/-- C7 witness: the amended characterization applied to a short job
description and to a missing resume source. -/
theorem c7_validation_characterized_witness :
    start_analysis sdFix "short" none none (some "x") none "tok" 0 {} =
      .error "Job description must be at least 50 characters long" ∧
    start_analysis sdFix descFix none none none none "tok" 0 {} =
      .error "Either resume file or resume text must be provided" :=
  ⟨(c7_validation_characterized sdFix "short" none none (some "x") none "tok" 0 {}).1.mpr
      (by decide),
   ((c7_validation_characterized sdFix descFix none none none none "tok" 0 {}).2.1.mpr
      (by refine ⟨by decide, by decide, by decide⟩))⟩

end CareerCraft

namespace CareerCraft

/-! ## Claim C10 — file-upload resumes are never parsed -/

/-- The fixed step-3 placeholder payload for a file upload. -/
def filePlaceholderPayload (fid : String) : ParsedResumePayload :=
  .fromFile
    { source := "file_upload", file_id := fid,
      parsing_method := "file_service",
      content := "File parsing integration pending - requires file tracking system" }
    { parsing_method := "advanced_parser", sections_detected := 0,
      work_experiences := 0, skills_extracted := 0 }

/-- C10: for a job started with a (truthy) resume file reference, the
Resume Parsing executor returns the fixed placeholder payload — source
`"file_upload"`, content `"File parsing integration pending - requires
file tracking system"`, no contact/experience/skills fields — and never
invokes the text-extraction capability (the call log is unchanged);
moreover, in a full run of such a job with all external calls
succeeding, step 3 is marked completed and the job reaches overall
status `completed` with no `parse_resume` call ever issued. -/
theorem c10_file_resume_never_parsed
    (aid : String) (req : AnalysisRequest) (t : Nat) (s : ServiceState)
    (fid : String) (hf : req.resume_file_id = some fid) (hne : fid ≠ "") :
    (execute_step_3_resume_parsing aid req t s).2 = .ok (filePlaceholderPayload fid) ∧
    ((execute_step_3_resume_parsing aid req t s).1).calls = s.calls ∧
    ((alistGet "analysis_tok"
        (process_analysis envAllOk "analysis_tok" 5 stStart).active_jobs).map
      (fun j => j.status) = some .completed ∧
     stepStatusOf .resume_parsing
        ((alistGet "analysis_tok"
          (process_analysis envAllOk "analysis_tok" 5 stStart).job_progress).getD []) =
        some (.completed, none) ∧
     ((process_analysis envAllOk "analysis_tok" 5 stStart).calls.contains
        "parse_resume") = false) := by
  have ht : truthyOpt (some fid) = true := by
    simpa [truthyOpt, truthyStr] using hne
  refine ⟨?_, ?_, by decide, by decide, by decide⟩
  · simp [execute_step_3_resume_parsing, ht, hf, filePlaceholderPayload]
  · simp [execute_step_3_resume_parsing, hf, ht, update_step_status]

/-- C10 witness: the placeholder behaviour at a concrete file-upload
request. -/
theorem c10_file_resume_never_parsed_witness :
    (execute_step_3_resume_parsing "a" reqFix 0 {}).2 =
      .ok (filePlaceholderPayload "file9") ∧
    ((execute_step_3_resume_parsing "a" reqFix 0 {}).1).calls =
      (({} : ServiceState)).calls ∧
    ((alistGet "analysis_tok"
        (process_analysis envAllOk "analysis_tok" 5 stStart).active_jobs).map
      (fun j => j.status) = some .completed ∧
     stepStatusOf .resume_parsing
        ((alistGet "analysis_tok"
          (process_analysis envAllOk "analysis_tok" 5 stStart).job_progress).getD []) =
        some (.completed, none) ∧
     ((process_analysis envAllOk "analysis_tok" 5 stStart).calls.contains
        "parse_resume") = false) :=
  c10_file_resume_never_parsed "a" reqFix 0 {} "file9" rfl (by decide)

end CareerCraft

namespace CareerCraft

/-! ## Claim C1 — Company Research degrades, never fails the job -/

/-- C1: for any job created by `start_analysis` (with a truthy file
resume so that no other step can fail) whose step-1 call succeeds with a
parsed payload naming an identifiable company, if the Company Research
call throws, then: step 2's own StepProgress is `failed` carrying the
error message; the orchestrator proceeds through steps 3–7 (all
`completed`); the stored result's company-research payload is the
sentinel; and the job finishes `completed`, not `failed`. -/
theorem c1_company_research_degrade_not_fail
    (env : Env) (sd : SessionData) (jd : String) (ju rf rt : Option String)
    (prefs : Option Preferences) (tok : String) (t0 t : Nat)
    (aid : String) (s1 : ServiceState)
    (hstart : start_analysis sd jd ju rf rt prefs tok t0 {} = .ok (aid, s1))
    (e : String) (he : e ≠ "") (h2 : env.research_company = .error e)
    (cr1 : ClaudeResult) (f1 : JobAnalysisFields)
    (h1 : env.analyze_job_description = .ok (cr1, some f1))
    (c : String) (hc : f1.company_name = some c) (hc1 : c ≠ "")
    (hc2 : c ≠ "Unknown Company")
    (hrf : truthyOpt rf = true)
    (cr4 : ClaudeResult) (p4 : Option SkillsFields)
    (h4 : env.analyze_skills_gap = .ok (cr4, p4))
    (cr5 : ClaudeResult) (p5 : Option RecFields)
    (h5 : env.analyze_resume = .ok (cr5, p5))
    (cr6 : ClaudeResult) (h6 : env.generate_cover_letter = .ok cr6) :
    stepStatusOf .company_research
        ((alistGet aid (process_analysis env aid t s1).job_progress).getD []) =
      some (.failed, some e) ∧
    (alistGet aid (process_analysis env aid t s1).active_jobs).map
        (fun j => j.status) = some .completed ∧
    (get_result aid (process_analysis env aid t s1)).map
        (fun r => r.company_research) = some (step2_sentinel e) ∧
    stepStatusOf .job_analysis
        ((alistGet aid (process_analysis env aid t s1).job_progress).getD []) =
      some (.completed, none) ∧
    stepStatusOf .resume_parsing
        ((alistGet aid (process_analysis env aid t s1).job_progress).getD []) =
      some (.completed, none) ∧
    stepStatusOf .skills_analysis
        ((alistGet aid (process_analysis env aid t s1).job_progress).getD []) =
      some (.completed, none) ∧
    stepStatusOf .resume_enhancement
        ((alistGet aid (process_analysis env aid t s1).job_progress).getD []) =
      some (.completed, none) ∧
    stepStatusOf .cover_letter
        ((alistGet aid (process_analysis env aid t s1).job_progress).getD []) =
      some (.completed, none) ∧
    stepStatusOf .final_review
        ((alistGet aid (process_analysis env aid t s1).job_progress).getD []) =
      some (.completed, none) := by
  simp only [start_analysis] at hstart
  split at hstart
  · exact absurd hstart (by simp)
  · split at hstart
    · exact absurd hstart (by simp)
    · simp only [Except.ok.injEq, Prod.mk.injEq] at hstart
      obtain ⟨haid, hs1⟩ := hstart
      subst haid
      subst hs1
      have hcb : (c != "") = true := by simp [hc1]
      have hcb2 : (c != "Unknown Company") = true := by simp [hc2]
      have heb : truthyOpt (some e) = true := by
        simp [truthyOpt, truthyStr, he]
      have hrfb : truthyOpt rf = true := hrf
      simp [process_analysis, set_job_processing, execute_step_1_job_analysis,
        execute_step_2_company_research, execute_step_3_resume_parsing,
        execute_step_4_skills_analysis, execute_step_5_resume_enhancement,
        step5_rest, execute_step_6_cover_letter, execute_step_7_final_review,
        finalize_success, update_step_status, updateProgressEntry, logCall,
        alistGet, alistSet, alistModify, stepStatusOf, get_result,
        initProgress, allSteps, STEP_CONFIG, h1, h2, h4, h5, h6, hc,
        truthyStr, hcb, hcb2, heb, hrfb, count_claude_calls]

end CareerCraft

namespace CareerCraft

/-- The parsed step-1 fields used by the concrete fixtures. -/
def f1Fix : JobAnalysisFields :=
  { job_title := some "Engineer", company_name := some "Acme",
    requirements := some (.listv ["Python"]),
    keywords := some ["Python"], industry := some "Tech" }

/-- C1 witness: the degradation behaviour at the concrete environment in
which only the Company Research call throws. -/
theorem c1_company_research_degrade_not_fail_witness :
    stepStatusOf .company_research
        ((alistGet "analysis_tok"
          (process_analysis envFail2 "analysis_tok" 5 stStart).job_progress).getD []) =
      some (.failed, some "boom") ∧
    (alistGet "analysis_tok"
        (process_analysis envFail2 "analysis_tok" 5 stStart).active_jobs).map
        (fun j => j.status) = some .completed ∧
    (get_result "analysis_tok" (process_analysis envFail2 "analysis_tok" 5 stStart)).map
        (fun r => r.company_research) = some (step2_sentinel "boom") ∧
    stepStatusOf .job_analysis
        ((alistGet "analysis_tok"
          (process_analysis envFail2 "analysis_tok" 5 stStart).job_progress).getD []) =
      some (.completed, none) ∧
    stepStatusOf .resume_parsing
        ((alistGet "analysis_tok"
          (process_analysis envFail2 "analysis_tok" 5 stStart).job_progress).getD []) =
      some (.completed, none) ∧
    stepStatusOf .skills_analysis
        ((alistGet "analysis_tok"
          (process_analysis envFail2 "analysis_tok" 5 stStart).job_progress).getD []) =
      some (.completed, none) ∧
    stepStatusOf .resume_enhancement
        ((alistGet "analysis_tok"
          (process_analysis envFail2 "analysis_tok" 5 stStart).job_progress).getD []) =
      some (.completed, none) ∧
    stepStatusOf .cover_letter
        ((alistGet "analysis_tok"
          (process_analysis envFail2 "analysis_tok" 5 stStart).job_progress).getD []) =
      some (.completed, none) ∧
    stepStatusOf .final_review
        ((alistGet "analysis_tok"
          (process_analysis envFail2 "analysis_tok" 5 stStart).job_progress).getD []) =
      some (.completed, none) :=
  c1_company_research_degrade_not_fail envFail2 sdFix descFix none
    (some "file9") none none "tok" 0 5 "analysis_tok" stStart rfl
    "boom" (by decide) rfl ⟨"jr", 300, 1⟩ f1Fix rfl "Acme" rfl (by decide)
    (by decide) (by decide) ⟨"sr", 100, 1⟩ (some {}) rfl ⟨"rec", 100, 1⟩
    (some {}) rfl ⟨"Dear hiring manager", 100, 1⟩ rfl

/-! ## Claim C2 — completed jobs and 100% -/

/-- C2 counterexample: a job whose Company Research call throws still
finishes with overall status `completed`, yet its step-2 StepProgress is
`failed` and `get_progress` reports 85, not 100 — refuting "all seven
StepProgress records are completed and the percentage equals 100". -/
theorem c2_counterexample_completed_at_85 :
    (alistGet "analysis_tok"
        (process_analysis envFail2 "analysis_tok" 5 stStart).active_jobs).map
      (fun j => j.status) = some .completed ∧
    (get_progress "analysis_tok"
        (process_analysis envFail2 "analysis_tok" 5 stStart)).map
      (fun p => p.overall_progress) = some 85 ∧
    stepStatusOf .company_research
        ((alistGet "analysis_tok"
          (process_analysis envFail2 "analysis_tok" 5 stStart).job_progress).getD []) =
      some (.failed, some "boom") ∧
    (85 : Nat) ≠ 100 := by
  refine ⟨by decide, by decide, by decide, by decide⟩

end CareerCraft


namespace CareerCraft

/-! ## State observables and projection lemmas

The orchestrator functions only ever touch the shared stores through
`update_step_status`, `logCall`, `set_job_processing`, `fail_job` and
`finalize_success`.  The lemmas below push the three observables — the
job's progress list, its overall status and its stored result — through
those operations, so that a run's observable outcome can be computed
compositionally. -/

/-- The job's progress list (`self.job_progress.get(aid, [])`). -/
def progOf (aid : String) (s : ServiceState) : List AnalysisProgress :=
  (alistGet aid s.job_progress).getD []

/-- The job's overall status, when the job exists. -/
def statusOf (aid : String) (s : ServiceState) : Option AnalysisStatus :=
  (alistGet aid s.active_jobs).map (fun j => j.status)

/-- The job's stored result (`self.job_results.get(aid)`). -/
def resultOf (aid : String) (s : ServiceState) : Option AnalysisResult :=
  alistGet aid s.job_results

theorem updateProgressEntry_nil (step st err t) :
    updateProgressEntry step st err t [] = [] := rfl

theorem markProcessingFailed_nil (e : String) (t : Nat) :
    markProcessingFailed e t [] = [] := rfl

theorem markProcessingCancelled_nil (t : Nat) :
    markProcessingCancelled t [] = [] := rfl

@[simp] theorem progOf_update_step_status (aid step st err t s) :
    progOf aid (update_step_status aid step st err t s) =
      updateProgressEntry step st err t (progOf aid s) := by
  simp only [progOf, update_step_status, alistGet_modify_self]
  cases alistGet aid s.job_progress <;>
    simp [updateProgressEntry_nil]

@[simp] theorem statusOf_update_step_status (aid step st err t s) :
    statusOf aid (update_step_status aid step st err t s) = statusOf aid s := by
  simp only [statusOf, update_step_status, alistGet_modify_self]
  cases alistGet aid s.active_jobs <;> simp

@[simp] theorem resultOf_update_step_status (aid step st err t s) :
    resultOf aid (update_step_status aid step st err t s) = resultOf aid s := rfl

@[simp] theorem progOf_logCall (aid name s) :
    progOf aid (logCall name s) = progOf aid s := rfl

@[simp] theorem statusOf_logCall (aid name s) :
    statusOf aid (logCall name s) = statusOf aid s := rfl

@[simp] theorem resultOf_logCall (aid name s) :
    resultOf aid (logCall name s) = resultOf aid s := rfl

@[simp] theorem progOf_set_job_processing (aid t s) :
    progOf aid (set_job_processing aid t s) = progOf aid s := rfl

@[simp] theorem statusOf_set_job_processing (aid t s) :
    statusOf aid (set_job_processing aid t s) =
      (statusOf aid s).map (fun _ => .processing) := by
  simp only [statusOf, set_job_processing, alistGet_modify_self]
  cases alistGet aid s.active_jobs <;> simp

@[simp] theorem resultOf_set_job_processing (aid t s) :
    resultOf aid (set_job_processing aid t s) = resultOf aid s := rfl

@[simp] theorem progOf_fail_job (aid e t s) :
    progOf aid (fail_job aid e t s) = markProcessingFailed e t (progOf aid s) := by
  simp only [progOf, fail_job, alistGet_modify_self]
  cases alistGet aid s.job_progress <;>
    simp [markProcessingFailed_nil]

@[simp] theorem statusOf_fail_job (aid e t s) :
    statusOf aid (fail_job aid e t s) =
      (statusOf aid s).map (fun _ => .failed) := by
  simp only [statusOf, fail_job, alistGet_modify_self]
  cases alistGet aid s.active_jobs <;> simp

@[simp] theorem resultOf_fail_job (aid e t s) :
    resultOf aid (fail_job aid e t s) = resultOf aid s := rfl

@[simp] theorem progOf_finalize_success (aid req ja crp pr sa rr cl fs t0 t s) :
    progOf aid (finalize_success aid req ja crp pr sa rr cl fs t0 t s) =
      progOf aid s := rfl

@[simp] theorem statusOf_finalize_success (aid req ja crp pr sa rr cl fs t0 t s) :
    statusOf aid (finalize_success aid req ja crp pr sa rr cl fs t0 t s) =
      (statusOf aid s).map (fun _ => .completed) := by
  simp only [statusOf, finalize_success, alistGet_modify_self]
  cases alistGet aid s.active_jobs <;> simp

@[simp] theorem resultOf_finalize_success (aid req ja crp pr sa rr cl fs t0 t s) :
    (resultOf aid (finalize_success aid req ja crp pr sa rr cl fs t0 t s)).isSome =
      true := by
  simp [resultOf, finalize_success, alistGet_set_self]

@[simp] theorem progOf_mk (aid aj jp jr cs) :
    progOf aid (ServiceState.mk aj jp jr cs) = (alistGet aid jp).getD [] := rfl

@[simp] theorem statusOf_mk (aid aj jp jr cs) :
    statusOf aid (ServiceState.mk aj jp jr cs) =
      (alistGet aid aj).map (fun j => j.status) := rfl

@[simp] theorem resultOf_mk (aid aj jp jr cs) :
    resultOf aid (ServiceState.mk aj jp jr cs) = alistGet aid jr := rfl

/-- `get_progress`'s overall percentage, for a job known to exist,
expressed through the observables. -/
theorem get_progress_overall_of_status {aid : String} {s : ServiceState}
    {st : AnalysisStatus} (h : statusOf aid s = some st) :
    (get_progress aid s).map (fun p => p.overall_progress) =
      some (if (progOf aid s).length ≠ 0 then
        countCompleted (progOf aid s) * 100 / (progOf aid s).length else 0) := by
  simp only [statusOf] at h
  cases halist : alistGet aid s.active_jobs with
  | none => rw [halist] at h; exact absurd h (by simp)
  | some job => simp [get_progress, halist, progOf]

/-- `get_result` through the observables. -/
theorem get_result_eq_resultOf (aid : String) (s : ServiceState) :
    get_result aid s = resultOf aid s := rfl

end CareerCraft

namespace CareerCraft

/-! ## Progress-chain evaluation layer

`updateProgressEntry` only ever changes the `status` (plus timestamps and
error message) of the entry for one step; projecting a progress list to
its step/status pairs therefore turns a chain of `updateProgressEntry`
applications into a chain of small `setStatus` updates that a kernel
evaluation can discharge. -/

deriving instance Fintype for AnalysisStep

deriving instance Fintype for AnalysisStatus

/-- The step/status projection of a progress list. -/
def stepStatuses (l : List AnalysisProgress) :
    List (AnalysisStep × AnalysisStatus) :=
  l.map (fun p => (p.step, p.status))

/-- The effect of `updateProgressEntry` on the step/status projection. -/
def setStatus (step : AnalysisStep) (st : AnalysisStatus) :
    List (AnalysisStep × AnalysisStatus) → List (AnalysisStep × AnalysisStatus)
  | [] => []
  | q :: rest =>
    if q.1 = step then (q.1, st) :: rest else q :: setStatus step st rest

theorem stepStatuses_update (step : AnalysisStep) (st : AnalysisStatus)
    (err : Option String) (t : Nat) (l : List AnalysisProgress) :
    stepStatuses (updateProgressEntry step st err t l) =
      setStatus step st (stepStatuses l) := by
  induction l with
  | nil => rfl
  | cons p rest ih =>
    by_cases h : p.step = step
    · simp [updateProgressEntry, stepStatuses, setStatus, h]
    · simp [updateProgressEntry, stepStatuses, setStatus, h]
      simpa [stepStatuses] using ih

theorem stepStatusOf_fst (step : AnalysisStep) (l : List AnalysisProgress) :
    (stepStatusOf step l).map (fun r => r.1) =
      ((stepStatuses l).find? (fun q => q.1 == step)).map (fun q => q.2) := by
  induction l with
  | nil => rfl
  | cons p rest ih =>
    by_cases h : p.step == step
    · simp [stepStatusOf, stepStatuses, List.find?, h]
    · simp [stepStatusOf, stepStatuses, List.find?, h]
      simpa [stepStatusOf, stepStatuses] using ih

theorem countCompleted_statuses (l : List AnalysisProgress) :
    countCompleted l =
      ((stepStatuses l).filter
        (fun q => q.2 == AnalysisStatus.completed)).length := by
  induction l with
  | nil => rfl
  | cons p rest ih =>
    by_cases h : p.status == AnalysisStatus.completed
    · simp [countCompleted, stepStatuses, List.filter, h] at ih ⊢
      omega
    · simp [countCompleted, stepStatuses, List.filter, h] at ih ⊢
      omega

theorem length_updateProgressEntry (step : AnalysisStep)
    (st : AnalysisStatus) (err : Option String) (t : Nat)
    (l : List AnalysisProgress) :
    (updateProgressEntry step st err t l).length = l.length := by
  induction l with
  | nil => rfl
  | cons p rest ih =>
    by_cases h : p.step = step <;> simp [updateProgressEntry, h, ih]

theorem stepStatuses_init :
    stepStatuses initProgress =
      [(.job_analysis, .pending), (.company_research, .pending),
       (.resume_parsing, .pending), (.skills_analysis, .pending),
       (.resume_enhancement, .pending), (.cover_letter, .pending),
       (.final_review, .pending)] := rfl

theorem length_initProgress : initProgress.length = 7 := rfl

/-- The status and error message `_execute_step_2_company_research` leaves
on its own progress entry: `failed` with the error exactly when the
company name is usable and the external call throws, `completed`
otherwise. -/
def step2Outcome (env : Env) (ja : JobAnalysisPayload) :
    AnalysisStatus × Option String :=
  let company_name := ja.company_name.getD "Unknown Company"
  if truthyStr company_name && company_name != "Unknown Company" then
    match env.research_company with
    | .error e => (.failed, some e)
    | .ok _ => (.completed, none)
  else (.completed, none)

theorem step2Outcome_fst_cases (env : Env) (ja : JobAnalysisPayload) :
    (step2Outcome env ja).1 = .completed ∨ (step2Outcome env ja).1 = .failed := by
  rcases henv : env.research_company with e | x <;>
    simp only [step2Outcome, henv] <;> split <;> simp

/-- Step 2 returns a pair, never an exception; its effect on the job's
progress list is exactly a `processing` update followed by the
`step2Outcome` update. -/
theorem progOf_execute_step_2 (env : Env) (aid : String)
    (req : AnalysisRequest) (ja : JobAnalysisPayload) (t : Nat)
    (s : ServiceState) :
    progOf aid (execute_step_2_company_research env aid req ja t s).1 =
      updateProgressEntry .company_research (step2Outcome env ja).1
        (step2Outcome env ja).2 t
        (updateProgressEntry .company_research .processing none t
          (progOf aid s)) := by
  rcases henv : env.research_company with e | x <;>
    simp only [execute_step_2_company_research, step2Outcome, henv] <;>
    split <;> simp

theorem statusOf_execute_step_2 (env : Env) (aid : String)
    (req : AnalysisRequest) (ja : JobAnalysisPayload) (t : Nat)
    (s : ServiceState) :
    statusOf aid (execute_step_2_company_research env aid req ja t s).1 =
      statusOf aid s := by
  rcases henv : env.research_company with e | x <;>
    simp only [execute_step_2_company_research, henv] <;>
    split <;> simp

/-- The Company Research payload as a function of the environment and the
step-1 payload alone (the state threading is irrelevant to it). -/
def step2_payload (env : Env) (ja : JobAnalysisPayload) :
    CompanyResearchPayload :=
  let company_name := ja.company_name.getD "Unknown Company"
  let method :=
    if company_name ≠ "Unknown Company" then "claude_api" else "fallback"
  let identified := company_name ≠ "Unknown Company"
  if truthyStr company_name && company_name != "Unknown Company" then
    match env.research_company with
    | .error e => step2_sentinel e
    | .ok (cr, parsed) =>
      match parsed with
      | some f =>
        { company_name := f.company_name,
          research_summary := f.research_summary,
          industry := f.industry, culture_insights := f.culture_insights,
          research_method := method, company_identified := some identified,
          error := none }
      | none =>
        { company_name := some company_name,
          research_summary := some cr.response_text,
          industry := some "Not identified",
          culture_insights :=
            some ["Research completed but structured data unavailable"],
          research_method := method, company_identified := some identified,
          error := none }
  else
    { company_name := some "Not specified",
      research_summary :=
        some "Company name not clearly identified in job posting",
      industry := some "Unknown",
      culture_insights :=
        some ["Company research requires identifiable company name"],
      research_method := method, company_identified := some identified,
      error := none }

theorem execute_step_2_snd (env : Env) (aid : String)
    (req : AnalysisRequest) (ja : JobAnalysisPayload) (t : Nat)
    (s : ServiceState) :
    (execute_step_2_company_research env aid req ja t s).2 =
      step2_payload env ja := by
  rcases henv : env.research_company with e | ⟨cr, parsed⟩ <;>
    simp only [execute_step_2_company_research, step2_payload, henv] <;>
    split <;> simp

theorem resultOf_execute_step_2 (env : Env) (aid : String)
    (req : AnalysisRequest) (ja : JobAnalysisPayload) (t : Nat)
    (s : ServiceState) :
    resultOf aid (execute_step_2_company_research env aid req ja t s).1 =
      resultOf aid s := by
  rcases henv : env.research_company with e | x <;>
    simp only [execute_step_2_company_research, henv] <;>
    split <;> simp

end CareerCraft

namespace CareerCraft

section C2Proof

attribute [local irreducible] updateProgressEntry

set_option maxHeartbeats 1000000 in
/-- C2 (amended): a job that reaches overall status `completed` has every
progress record `completed` except possibly Company Research: either all
seven records are `completed` and `get_progress` reports exactly 100, or
Company Research alone is `failed` (its external call threw, C1's
degrade-not-fail path) and `get_progress` reports 85.  The original
claim's "all seven completed and exactly 100" is refuted by
`c2_counterexample_completed_at_85`. -/
theorem c2_completed_all_steps_but_research
    (env : Env) (sd : SessionData) (jd : String) (ju rf rt : Option String)
    (prefs : Option Preferences) (tok : String) (t0 t : Nat)
    (aid : String) (s1 : ServiceState)
    (hstart : start_analysis sd jd ju rf rt prefs tok t0 {} = .ok (aid, s1))
    (hdone : statusOf aid (process_analysis env aid t s1) =
      some AnalysisStatus.completed) :
    (stepStatuses (progOf aid (process_analysis env aid t s1)) =
        [(.job_analysis, .completed), (.company_research, .completed),
         (.resume_parsing, .completed), (.skills_analysis, .completed),
         (.resume_enhancement, .completed), (.cover_letter, .completed),
         (.final_review, .completed)] ∧
      (get_progress aid (process_analysis env aid t s1)).map
        (fun p => p.overall_progress) = some 100) ∨
    (stepStatuses (progOf aid (process_analysis env aid t s1)) =
        [(.job_analysis, .completed), (.company_research, .failed),
         (.resume_parsing, .completed), (.skills_analysis, .completed),
         (.resume_enhancement, .completed), (.cover_letter, .completed),
         (.final_review, .completed)] ∧
      (get_progress aid (process_analysis env aid t s1)).map
        (fun p => p.overall_progress) = some 85) := by
  rw [get_progress_overall_of_status hdone]
  simp only [start_analysis] at hstart
  split at hstart
  · exact absurd hstart (by simp)
  · split at hstart
    · exact absurd hstart (by simp)
    · rename_i hcond1 hcond2
      simp only [Except.ok.injEq, Prod.mk.injEq] at hstart
      obtain ⟨haid, hs1⟩ := hstart
      subst haid
      subst hs1
      obtain ⟨e1, e2, e3, e4, e5⟩ := env
      rcases e1 with e1e | ⟨cr1, pf1⟩
      · -- step 1 raises: the job is failed, contradicting `hdone`
        revert hdone
        simp [process_analysis, set_job_processing, execute_step_1_job_analysis, alistGet_set_self]
      · by_cases hrf : truthyOpt rf = true
        · -- resume file path through step 3
          rcases e3 with e3e | ⟨cr3, pf3⟩
          · -- step 4 raises
            revert hdone
            simp [process_analysis, set_job_processing, execute_step_1_job_analysis, statusOf_execute_step_2, execute_step_3_resume_parsing, execute_step_4_skills_analysis, alistGet_set_self, hrf]
          · rcases e4 with e4e | ⟨cr4, pf4⟩
            · -- step 5 raises
              revert hdone
              simp [process_analysis, set_job_processing, execute_step_1_job_analysis, statusOf_execute_step_2, execute_step_3_resume_parsing, execute_step_4_skills_analysis, execute_step_5_resume_enhancement, step5_rest, alistGet_set_self, hrf]
            · rcases e5 with e5e | cr5
              · -- step 6 raises
                revert hdone
                simp [process_analysis, set_job_processing, execute_step_1_job_analysis, statusOf_execute_step_2, execute_step_3_resume_parsing, execute_step_4_skills_analysis, execute_step_5_resume_enhancement, step5_rest, execute_step_6_cover_letter, alistGet_set_self, hrf]
              · rcases pf1 with _ | f1
                · -- no structured step-1 data: research always runs
                  rcases e2 with e2e | ⟨cr2, pf2⟩
                  · -- research throws
                    simp [process_analysis, set_job_processing, execute_step_1_job_analysis,
                      progOf_execute_step_2, statusOf_execute_step_2, execute_step_2_snd,
                        step2Outcome, execute_step_3_resume_parsing,
                      execute_step_4_skills_analysis, execute_step_5_resume_enhancement,
                      step5_rest, execute_step_6_cover_letter, execute_step_7_eq,
                      alistGet_set_self, truthyStr, hrf,
                      stepStatusOf_fst, stepStatuses_update, countCompleted_statuses,
                      length_updateProgressEntry, stepStatuses_init, length_initProgress, setStatus]
                  · -- research succeeds
                    rcases pf2 with _ | f2
                    · -- unstructured research payload
                      simp [process_analysis, set_job_processing, execute_step_1_job_analysis,
                        progOf_execute_step_2, statusOf_execute_step_2, execute_step_2_snd,
                        step2Outcome, execute_step_3_resume_parsing,
                        execute_step_4_skills_analysis, execute_step_5_resume_enhancement,
                        step5_rest, execute_step_6_cover_letter, execute_step_7_eq,
                        alistGet_set_self, truthyStr, hrf,
                        stepStatusOf_fst, stepStatuses_update, countCompleted_statuses,
                        length_updateProgressEntry, stepStatuses_init, length_initProgress, setStatus]
                    · -- structured research payload
                      simp [process_analysis, set_job_processing, execute_step_1_job_analysis,
                        progOf_execute_step_2, statusOf_execute_step_2, execute_step_2_snd,
                        step2Outcome, execute_step_3_resume_parsing,
                        execute_step_4_skills_analysis, execute_step_5_resume_enhancement,
                        step5_rest, execute_step_6_cover_letter, execute_step_7_eq,
                        alistGet_set_self, truthyStr, hrf,
                        stepStatusOf_fst, stepStatuses_update, countCompleted_statuses,
                        length_updateProgressEntry, stepStatuses_init, length_initProgress, setStatus]
                · by_cases hb0 : f1.company_name.getD "Unknown Company" = ""
                  · -- empty company name: research is skipped
                    simp [process_analysis, set_job_processing, execute_step_1_job_analysis,
                      progOf_execute_step_2, statusOf_execute_step_2, execute_step_2_snd,
                        step2Outcome, execute_step_3_resume_parsing,
                      execute_step_4_skills_analysis, execute_step_5_resume_enhancement,
                      step5_rest, execute_step_6_cover_letter, execute_step_7_eq,
                      alistGet_set_self, truthyStr, hrf, hb0,
                      stepStatusOf_fst, stepStatuses_update, countCompleted_statuses,
                      length_updateProgressEntry, stepStatuses_init, length_initProgress, setStatus]
                  · by_cases hb1 :
                        f1.company_name.getD "Unknown Company" = "Unknown Company"
                    · -- unidentified company: research is skipped
                      simp [process_analysis, set_job_processing, execute_step_1_job_analysis,
                        progOf_execute_step_2, statusOf_execute_step_2, execute_step_2_snd,
                        step2Outcome, execute_step_3_resume_parsing,
                        execute_step_4_skills_analysis, execute_step_5_resume_enhancement,
                        step5_rest, execute_step_6_cover_letter, execute_step_7_eq,
                        alistGet_set_self, truthyStr, hrf, hb0, hb1,
                        stepStatusOf_fst, stepStatuses_update, countCompleted_statuses,
                        length_updateProgressEntry, stepStatuses_init, length_initProgress, setStatus]
                    · rcases e2 with e2e | ⟨cr2, pf2⟩
                      · -- identified company: research throws
                        simp [process_analysis, set_job_processing, execute_step_1_job_analysis,
                          progOf_execute_step_2, statusOf_execute_step_2, execute_step_2_snd,
                        step2Outcome, execute_step_3_resume_parsing,
                          execute_step_4_skills_analysis, execute_step_5_resume_enhancement,
                          step5_rest, execute_step_6_cover_letter, execute_step_7_eq,
                          alistGet_set_self, truthyStr, hrf, hb0, hb1,
                          stepStatusOf_fst, stepStatuses_update, countCompleted_statuses,
                          length_updateProgressEntry, stepStatuses_init, length_initProgress, setStatus]
                      · -- identified company: research succeeds
                        simp [process_analysis, set_job_processing, execute_step_1_job_analysis,
                          progOf_execute_step_2, statusOf_execute_step_2, execute_step_2_snd,
                        step2Outcome, execute_step_3_resume_parsing,
                          execute_step_4_skills_analysis, execute_step_5_resume_enhancement,
                          step5_rest, execute_step_6_cover_letter, execute_step_7_eq,
                          alistGet_set_self, truthyStr, hrf, hb0, hb1,
                          stepStatusOf_fst, stepStatuses_update, countCompleted_statuses,
                          length_updateProgressEntry, stepStatuses_init, length_initProgress, setStatus]
        · -- resume text path through step 3
          have hrf' : truthyOpt rf = false := by
            revert hrf; cases truthyOpt rf <;> simp
          have hrt : truthyOpt rt = true := by
            revert hcond2; rw [hrf']; cases truthyOpt rt <;> simp
          rcases hpar : parse_resume (rt.getD "") with pe | pd
          · -- step 3's parse raises
            revert hdone
            simp [process_analysis, set_job_processing, execute_step_1_job_analysis, statusOf_execute_step_2, execute_step_3_resume_parsing, alistGet_set_self, hrf', hrt, hpar]
          · rcases e3 with e3e | ⟨cr3, pf3⟩
            · -- step 4 raises
              revert hdone
              simp [process_analysis, set_job_processing, execute_step_1_job_analysis, statusOf_execute_step_2, execute_step_3_resume_parsing, execute_step_4_skills_analysis, alistGet_set_self, hrf', hrt, hpar]
            · rcases e4 with e4e | ⟨cr4, pf4⟩
              · -- step 5 raises
                revert hdone
                simp [process_analysis, set_job_processing, execute_step_1_job_analysis, statusOf_execute_step_2, execute_step_3_resume_parsing, execute_step_4_skills_analysis, execute_step_5_resume_enhancement, step5_rest, alistGet_set_self, hrf', hrt, hpar]
              · rcases e5 with e5e | cr5
                · -- step 6 raises
                  revert hdone
                  simp [process_analysis, set_job_processing, execute_step_1_job_analysis, statusOf_execute_step_2, execute_step_3_resume_parsing, execute_step_4_skills_analysis, execute_step_5_resume_enhancement, step5_rest, execute_step_6_cover_letter, alistGet_set_self, hrf', hrt, hpar]
                · rcases pf1 with _ | f1
                  · -- no structured step-1 data: research always runs
                    rcases e2 with e2e | ⟨cr2, pf2⟩
                    · -- research throws
                      simp [process_analysis, set_job_processing, execute_step_1_job_analysis,
                        progOf_execute_step_2, statusOf_execute_step_2, execute_step_2_snd,
                        step2Outcome, execute_step_3_resume_parsing,
                        execute_step_4_skills_analysis, execute_step_5_resume_enhancement,
                        step5_rest, execute_step_6_cover_letter, execute_step_7_eq,
                        alistGet_set_self, truthyStr, hrf', hrt, hpar,
                        stepStatusOf_fst, stepStatuses_update, countCompleted_statuses,
                        length_updateProgressEntry, stepStatuses_init, length_initProgress, setStatus]
                    · -- research succeeds
                      rcases pf2 with _ | f2
                      · -- unstructured research payload
                        simp [process_analysis, set_job_processing, execute_step_1_job_analysis,
                          progOf_execute_step_2, statusOf_execute_step_2, execute_step_2_snd,
                        step2Outcome, execute_step_3_resume_parsing,
                          execute_step_4_skills_analysis, execute_step_5_resume_enhancement,
                          step5_rest, execute_step_6_cover_letter, execute_step_7_eq,
                          alistGet_set_self, truthyStr, hrf', hrt, hpar,
                          stepStatusOf_fst, stepStatuses_update, countCompleted_statuses,
                          length_updateProgressEntry, stepStatuses_init, length_initProgress, setStatus]
                      · -- structured research payload
                        simp [process_analysis, set_job_processing, execute_step_1_job_analysis,
                          progOf_execute_step_2, statusOf_execute_step_2, execute_step_2_snd,
                        step2Outcome, execute_step_3_resume_parsing,
                          execute_step_4_skills_analysis, execute_step_5_resume_enhancement,
                          step5_rest, execute_step_6_cover_letter, execute_step_7_eq,
                          alistGet_set_self, truthyStr, hrf', hrt, hpar,
                          stepStatusOf_fst, stepStatuses_update, countCompleted_statuses,
                          length_updateProgressEntry, stepStatuses_init, length_initProgress, setStatus]
                  · by_cases hb0 : f1.company_name.getD "Unknown Company" = ""
                    · -- empty company name: research is skipped
                      simp [process_analysis, set_job_processing, execute_step_1_job_analysis,
                        progOf_execute_step_2, statusOf_execute_step_2, execute_step_2_snd,
                        step2Outcome, execute_step_3_resume_parsing,
                        execute_step_4_skills_analysis, execute_step_5_resume_enhancement,
                        step5_rest, execute_step_6_cover_letter, execute_step_7_eq,
                        alistGet_set_self, truthyStr, hrf', hrt, hpar, hb0,
                        stepStatusOf_fst, stepStatuses_update, countCompleted_statuses,
                        length_updateProgressEntry, stepStatuses_init, length_initProgress, setStatus]
                    · by_cases hb1 :
                          f1.company_name.getD "Unknown Company" = "Unknown Company"
                      · -- unidentified company: research is skipped
                        simp [process_analysis, set_job_processing, execute_step_1_job_analysis,
                          progOf_execute_step_2, statusOf_execute_step_2, execute_step_2_snd,
                        step2Outcome, execute_step_3_resume_parsing,
                          execute_step_4_skills_analysis, execute_step_5_resume_enhancement,
                          step5_rest, execute_step_6_cover_letter, execute_step_7_eq,
                          alistGet_set_self, truthyStr, hrf', hrt, hpar, hb0, hb1,
                          stepStatusOf_fst, stepStatuses_update, countCompleted_statuses,
                          length_updateProgressEntry, stepStatuses_init, length_initProgress, setStatus]
                      · rcases e2 with e2e | ⟨cr2, pf2⟩
                        · -- identified company: research throws
                          simp [process_analysis, set_job_processing, execute_step_1_job_analysis,
                            progOf_execute_step_2, statusOf_execute_step_2, execute_step_2_snd,
                        step2Outcome, execute_step_3_resume_parsing,
                            execute_step_4_skills_analysis, execute_step_5_resume_enhancement,
                            step5_rest, execute_step_6_cover_letter, execute_step_7_eq,
                            alistGet_set_self, truthyStr, hrf', hrt, hpar, hb0, hb1,
                            stepStatusOf_fst, stepStatuses_update, countCompleted_statuses,
                            length_updateProgressEntry, stepStatuses_init, length_initProgress, setStatus]
                        · -- identified company: research succeeds
                          simp [process_analysis, set_job_processing, execute_step_1_job_analysis,
                            progOf_execute_step_2, statusOf_execute_step_2, execute_step_2_snd,
                        step2Outcome, execute_step_3_resume_parsing,
                            execute_step_4_skills_analysis, execute_step_5_resume_enhancement,
                            step5_rest, execute_step_6_cover_letter, execute_step_7_eq,
                            alistGet_set_self, truthyStr, hrf', hrt, hpar, hb0, hb1,
                            stepStatusOf_fst, stepStatuses_update, countCompleted_statuses,
                            length_updateProgressEntry, stepStatuses_init, length_initProgress, setStatus]


end C2Proof

/-- C2 witness: the amended statement at the all-success environment —
the job completes with every step `completed` and overall progress
exactly 100. -/
theorem c2_completed_all_steps_but_research_witness :
    (stepStatuses (progOf "analysis_tok"
        (process_analysis envAllOk "analysis_tok" 5 stStart)) =
      [(.job_analysis, .completed), (.company_research, .completed),
       (.resume_parsing, .completed), (.skills_analysis, .completed),
       (.resume_enhancement, .completed), (.cover_letter, .completed),
       (.final_review, .completed)] ∧
      (get_progress "analysis_tok"
          (process_analysis envAllOk "analysis_tok" 5 stStart)).map
        (fun p => p.overall_progress) = some 100) ∨
    (stepStatuses (progOf "analysis_tok"
        (process_analysis envAllOk "analysis_tok" 5 stStart)) =
      [(.job_analysis, .completed), (.company_research, .failed),
       (.resume_parsing, .completed), (.skills_analysis, .completed),
       (.resume_enhancement, .completed), (.cover_letter, .completed),
       (.final_review, .completed)] ∧
      (get_progress "analysis_tok"
          (process_analysis envAllOk "analysis_tok" 5 stStart)).map
        (fun p => p.overall_progress) = some 85) :=
  c2_completed_all_steps_but_research envAllOk sdFix descFix none
    (some "file9") none none "tok" 0 5 "analysis_tok" stStart rfl (by decide)

end CareerCraft


namespace CareerCraft

/-! ## Claim C3 — non-research failures halt the job -/

/-- The step/status/error projection of a progress list. -/
def stepOutcomes (l : List AnalysisProgress) :
    List (AnalysisStep × AnalysisStatus × Option String) :=
  l.map (fun p => (p.step, p.status, p.error_message))

/-- The effect of `updateProgressEntry` on the projection. -/
def setOutcome (step : AnalysisStep) (st : AnalysisStatus)
    (err : Option String) :
    List (AnalysisStep × AnalysisStatus × Option String) →
      List (AnalysisStep × AnalysisStatus × Option String)
  | [] => []
  | q :: rest =>
    if q.1 = step then
      (q.1, st, if truthyOpt err then err else q.2.2) :: rest
    else q :: setOutcome step st err rest

/-- The effect of the failure arm's processing-entry sweep on the
projection. -/
def markFailedOutcome (e : String) :
    List (AnalysisStep × AnalysisStatus × Option String) →
      List (AnalysisStep × AnalysisStatus × Option String)
  | [] => []
  | q :: rest =>
    if q.2.1 = AnalysisStatus.processing then
      (q.1, AnalysisStatus.failed, some e) :: rest
    else q :: markFailedOutcome e rest

theorem stepOutcomes_update (step : AnalysisStep) (st : AnalysisStatus)
    (err : Option String) (t : Nat) (l : List AnalysisProgress) :
    stepOutcomes (updateProgressEntry step st err t l) =
      setOutcome step st err (stepOutcomes l) := by
  induction l with
  | nil => rfl
  | cons p rest ih =>
    by_cases h : p.step = step
    · simp [updateProgressEntry, stepOutcomes, setOutcome, h]
    · simp [updateProgressEntry, stepOutcomes, setOutcome, h]
      simpa [stepOutcomes] using ih

theorem stepOutcomes_markFailed (e : String) (t : Nat)
    (l : List AnalysisProgress) :
    stepOutcomes (markProcessingFailed e t l) =
      markFailedOutcome e (stepOutcomes l) := by
  induction l with
  | nil => rfl
  | cons p rest ih =>
    by_cases h : p.status = AnalysisStatus.processing
    · simp [markProcessingFailed, stepOutcomes, markFailedOutcome, h]
    · simp [markProcessingFailed, stepOutcomes, markFailedOutcome, h]
      simpa [stepOutcomes] using ih

theorem stepStatusOf_eq_outcomes (step : AnalysisStep)
    (l : List AnalysisProgress) :
    stepStatusOf step l =
      ((stepOutcomes l).find? (fun q => q.1 == step)).map (fun q => q.2) := by
  induction l with
  | nil => rfl
  | cons p rest ih =>
    by_cases h : p.step == step
    · simp [stepStatusOf, stepOutcomes, List.find?, h]
    · simp [stepStatusOf, stepOutcomes, List.find?, h]
      simpa [stepStatusOf, stepOutcomes] using ih

theorem stepOutcomes_init :
    stepOutcomes initProgress =
      [(.job_analysis, .pending, none), (.company_research, .pending, none),
       (.resume_parsing, .pending, none), (.skills_analysis, .pending, none),
       (.resume_enhancement, .pending, none), (.cover_letter, .pending, none),
       (.final_review, .pending, none)] := rfl

theorem truthyOpt_some (s : String) : truthyOpt (some s) = truthyStr s := rfl

/-- Step 2 always leaves its entry `completed` or `failed`, never
`processing`. -/
theorem step2Outcome_ne_processing (env : Env) (ja : JobAnalysisPayload) :
    ((step2Outcome env ja).1 = AnalysisStatus.processing) = False := by
  rcases henv : env.research_company with e | x <;>
    simp only [step2Outcome, henv] <;> split <;> simp

/-- The request record `start_analysis` builds from its arguments. -/
def startRequest (sd : SessionData) (jd : String)
    (ju rf rt : Option String) (prefs : Option Preferences) :
    AnalysisRequest :=
  { session_id := sd.session_id,
    user_id :=
      match sd.user_id with
      | some u => if u.isEmpty then "anonymous" else u
      | none => "anonymous",
    job_description := jd, job_url := ju,
    resume_file_id := rf, resume_text := rt,
    preferences := prefs.getD {} }

/-- The first failure among steps 4–6, read off the environment. -/
def tailFirstFailure (env : Env) : Option (AnalysisStep × String) :=
  match env.analyze_skills_gap with
  | .error e => some (.skills_analysis, e)
  | .ok _ =>
    match env.analyze_resume with
    | .error e => some (.resume_enhancement, e)
    | .ok _ =>
      match env.generate_cover_letter with
      | .error e => some (.cover_letter, e)
      | .ok _ => none

/-- The first step (never Company Research, which cannot raise) at which
a run with this environment and request raises, with the raw error
message recorded on that step's progress entry. -/
def firstFailingStep (env : Env) (req : AnalysisRequest) :
    Option (AnalysisStep × String) :=
  match env.analyze_job_description with
  | .error e => some (.job_analysis, e)
  | .ok _ =>
    if truthyOpt req.resume_file_id then tailFirstFailure env
    else if truthyOpt req.resume_text then
      match parse_resume (req.resume_text.getD "") with
      | .error e => some (.resume_parsing, e)
      | .ok _ => tailFirstFailure env
    else some (.resume_parsing, "No resume data provided")

end CareerCraft

namespace CareerCraft

section C3Proof

attribute [local irreducible] updateProgressEntry markProcessingFailed

set_option maxHeartbeats 1000000 in
/-- C3: when any step other than Company Research raises (step 1's,
4's, 5's or 6's external call throws, or step 3's parse fails — Company
Research itself cannot raise, and step 7 is total), the job's overall
status becomes `failed`, the failing step's progress record is `failed`
carrying the raised message (dropped when falsy, per the source's
`if error_message:` guard), every later step stays `pending`, and no
result is stored: `get_result` returns `none`. -/
theorem c3_non_research_failure_fails_job
    (env : Env) (sd : SessionData) (jd : String) (ju rf rt : Option String)
    (prefs : Option Preferences) (tok : String) (t0 t : Nat)
    (aid : String) (s1 : ServiceState) (stp : AnalysisStep) (msg : String)
    (hstart : start_analysis sd jd ju rf rt prefs tok t0 {} = .ok (aid, s1))
    (hff : firstFailingStep env (startRequest sd jd ju rf rt prefs) =
      some (stp, msg)) :
    statusOf aid (process_analysis env aid t s1) =
      some AnalysisStatus.failed ∧
    stepStatusOf stp (progOf aid (process_analysis env aid t s1)) =
      some (AnalysisStatus.failed,
        if truthyStr msg = true then some msg else none) ∧
    (∀ stp2, (STEP_CONFIG stp).step_number < (STEP_CONFIG stp2).step_number →
      stepStatusOf stp2 (progOf aid (process_analysis env aid t s1)) =
        some (AnalysisStatus.pending, none)) ∧
    get_result aid (process_analysis env aid t s1) = none := by
  simp only [start_analysis] at hstart
  split at hstart
  · exact absurd hstart (by simp)
  · split at hstart
    · exact absurd hstart (by simp)
    · rename_i hcond1 hcond2
      simp only [Except.ok.injEq, Prod.mk.injEq] at hstart
      obtain ⟨haid, hs1⟩ := hstart
      subst haid
      subst hs1
      obtain ⟨e1, e2, e3, e4, e5⟩ := env
      rcases e1 with e1e | ⟨cr1, pf1⟩
      · -- step 1 raises
         simp [firstFailingStep, tailFirstFailure, startRequest, hcond2] at hff
         obtain ⟨h1, h2⟩ := hff
         subst h1
         subst h2
         simp [process_analysis, set_job_processing, execute_step_1_job_analysis,
           progOf_execute_step_2, statusOf_execute_step_2, resultOf_execute_step_2,
           execute_step_2_snd, step2Outcome_ne_processing, execute_step_3_resume_parsing,
           execute_step_4_skills_analysis, execute_step_5_resume_enhancement,
           step5_rest, execute_step_6_cover_letter, execute_step_7_eq,
           alistGet_set_self, alistGet_modify_self, alistGet, truthyStr, truthyOpt_some, hcond2,
           get_result_eq_resultOf, stepStatusOf_eq_outcomes, stepOutcomes_update,
           stepOutcomes_markFailed, setOutcome, markFailedOutcome, stepOutcomes_init]
         intro stp2
         cases stp2 <;> decide
      · by_cases hrf : truthyOpt rf = true
        · -- resume file path: step 3 cannot fail
          rcases e3 with e3e | ⟨cr3, pf3⟩
          · -- step 4 raises
             simp [firstFailingStep, tailFirstFailure, startRequest, hrf] at hff
             obtain ⟨h1, h2⟩ := hff
             subst h1
             subst h2
             simp [process_analysis, set_job_processing, execute_step_1_job_analysis,
               progOf_execute_step_2, statusOf_execute_step_2, resultOf_execute_step_2,
               execute_step_2_snd, step2Outcome_ne_processing, execute_step_3_resume_parsing,
               execute_step_4_skills_analysis, execute_step_5_resume_enhancement,
               step5_rest, execute_step_6_cover_letter, execute_step_7_eq,
               alistGet_set_self, alistGet_modify_self, alistGet, truthyStr, truthyOpt_some, hrf,
               get_result_eq_resultOf, stepStatusOf_eq_outcomes, stepOutcomes_update,
               stepOutcomes_markFailed, setOutcome, markFailedOutcome, stepOutcomes_init]
             intro stp2
             cases stp2 <;> first | decide | simp [STEP_CONFIG]
          · rcases e4 with e4e | ⟨cr4, pf4⟩
            · -- step 5 raises
               simp [firstFailingStep, tailFirstFailure, startRequest, hrf] at hff
               obtain ⟨h1, h2⟩ := hff
               subst h1
               subst h2
               simp [process_analysis, set_job_processing, execute_step_1_job_analysis,
                 progOf_execute_step_2, statusOf_execute_step_2, resultOf_execute_step_2,
                 execute_step_2_snd, step2Outcome_ne_processing, execute_step_3_resume_parsing,
                 execute_step_4_skills_analysis, execute_step_5_resume_enhancement,
                 step5_rest, execute_step_6_cover_letter, execute_step_7_eq,
                 alistGet_set_self, alistGet_modify_self, alistGet, truthyStr, truthyOpt_some, hrf,
                 get_result_eq_resultOf, stepStatusOf_eq_outcomes, stepOutcomes_update,
                 stepOutcomes_markFailed, setOutcome, markFailedOutcome, stepOutcomes_init]
               intro stp2
               cases stp2 <;> first | decide | simp [STEP_CONFIG]
            · rcases e5 with e5e | cr5
              · -- step 6 raises
                 simp [firstFailingStep, tailFirstFailure, startRequest, hrf] at hff
                 obtain ⟨h1, h2⟩ := hff
                 subst h1
                 subst h2
                 simp [process_analysis, set_job_processing, execute_step_1_job_analysis,
                   progOf_execute_step_2, statusOf_execute_step_2, resultOf_execute_step_2,
                   execute_step_2_snd, step2Outcome_ne_processing, execute_step_3_resume_parsing,
                   execute_step_4_skills_analysis, execute_step_5_resume_enhancement,
                   step5_rest, execute_step_6_cover_letter, execute_step_7_eq,
                   alistGet_set_self, alistGet_modify_self, alistGet, truthyStr, truthyOpt_some, hrf,
                   get_result_eq_resultOf, stepStatusOf_eq_outcomes, stepOutcomes_update,
                   stepOutcomes_markFailed, setOutcome, markFailedOutcome, stepOutcomes_init]
                 intro stp2
                 cases stp2 <;> first | decide | simp [STEP_CONFIG]
              · -- no step raises: `hff` is absurd
                simp [firstFailingStep, tailFirstFailure, startRequest, hrf] at hff
        · -- resume text path
          have hrf' : truthyOpt rf = false := by
            revert hrf; cases truthyOpt rf <;> simp
          have hrt : truthyOpt rt = true := by
            revert hcond2; rw [hrf']; cases truthyOpt rt <;> simp
          rcases hpar : parse_resume (rt.getD "") with pe | pd
          · -- step 3's parse raises
             simp [firstFailingStep, tailFirstFailure, startRequest, hrf', hrt, hpar] at hff
             obtain ⟨h1, h2⟩ := hff
             subst h1
             subst h2
             simp [process_analysis, set_job_processing, execute_step_1_job_analysis,
               progOf_execute_step_2, statusOf_execute_step_2, resultOf_execute_step_2,
               execute_step_2_snd, step2Outcome_ne_processing, execute_step_3_resume_parsing,
               execute_step_4_skills_analysis, execute_step_5_resume_enhancement,
               step5_rest, execute_step_6_cover_letter, execute_step_7_eq,
               alistGet_set_self, alistGet_modify_self, alistGet, truthyStr, truthyOpt_some, hrf', hrt, hpar,
               get_result_eq_resultOf, stepStatusOf_eq_outcomes, stepOutcomes_update,
               stepOutcomes_markFailed, setOutcome, markFailedOutcome, stepOutcomes_init]
             intro stp2
             cases stp2 <;> first | decide | simp [STEP_CONFIG]
          · rcases e3 with e3e | ⟨cr3, pf3⟩
            · -- step 4 raises
               simp [firstFailingStep, tailFirstFailure, startRequest, hrf', hrt, hpar] at hff
               obtain ⟨h1, h2⟩ := hff
               subst h1
               subst h2
               simp [process_analysis, set_job_processing, execute_step_1_job_analysis,
                 progOf_execute_step_2, statusOf_execute_step_2, resultOf_execute_step_2,
                 execute_step_2_snd, step2Outcome_ne_processing, execute_step_3_resume_parsing,
                 execute_step_4_skills_analysis, execute_step_5_resume_enhancement,
                 step5_rest, execute_step_6_cover_letter, execute_step_7_eq,
                 alistGet_set_self, alistGet_modify_self, alistGet, truthyStr, truthyOpt_some, hrf', hrt, hpar,
                 get_result_eq_resultOf, stepStatusOf_eq_outcomes, stepOutcomes_update,
                 stepOutcomes_markFailed, setOutcome, markFailedOutcome, stepOutcomes_init]
               intro stp2
               cases stp2 <;> first | decide | simp [STEP_CONFIG]
            · rcases e4 with e4e | ⟨cr4, pf4⟩
              · -- step 5 raises
                 simp [firstFailingStep, tailFirstFailure, startRequest, hrf', hrt, hpar] at hff
                 obtain ⟨h1, h2⟩ := hff
                 subst h1
                 subst h2
                 simp [process_analysis, set_job_processing, execute_step_1_job_analysis,
                   progOf_execute_step_2, statusOf_execute_step_2, resultOf_execute_step_2,
                   execute_step_2_snd, step2Outcome_ne_processing, execute_step_3_resume_parsing,
                   execute_step_4_skills_analysis, execute_step_5_resume_enhancement,
                   step5_rest, execute_step_6_cover_letter, execute_step_7_eq,
                   alistGet_set_self, alistGet_modify_self, alistGet, truthyStr, truthyOpt_some, hrf', hrt, hpar,
                   get_result_eq_resultOf, stepStatusOf_eq_outcomes, stepOutcomes_update,
                   stepOutcomes_markFailed, setOutcome, markFailedOutcome, stepOutcomes_init]
                 intro stp2
                 cases stp2 <;> first | decide | simp [STEP_CONFIG]
              · rcases e5 with e5e | cr5
                · -- step 6 raises
                   simp [firstFailingStep, tailFirstFailure, startRequest, hrf', hrt, hpar] at hff
                   obtain ⟨h1, h2⟩ := hff
                   subst h1
                   subst h2
                   simp [process_analysis, set_job_processing, execute_step_1_job_analysis,
                     progOf_execute_step_2, statusOf_execute_step_2, resultOf_execute_step_2,
                     execute_step_2_snd, step2Outcome_ne_processing, execute_step_3_resume_parsing,
                     execute_step_4_skills_analysis, execute_step_5_resume_enhancement,
                     step5_rest, execute_step_6_cover_letter, execute_step_7_eq,
                     alistGet_set_self, alistGet_modify_self, alistGet, truthyStr, truthyOpt_some, hrf', hrt, hpar,
                     get_result_eq_resultOf, stepStatusOf_eq_outcomes, stepOutcomes_update,
                     stepOutcomes_markFailed, setOutcome, markFailedOutcome, stepOutcomes_init]
                   intro stp2
                   cases stp2 <;> first | decide | simp [STEP_CONFIG]
                · -- no step raises: `hff` is absurd
                  simp [firstFailingStep, tailFirstFailure, startRequest, hrf', hrt, hpar] at hff

end C3Proof

end CareerCraft

namespace CareerCraft

/-- The all-success environment with the Skills Gap call (step 4)
throwing. -/
def envFail4 : Env := { envAllOk with analyze_skills_gap := .error "gap boom" }

/-- C3 witness: the failure behaviour at a concrete environment whose
step-4 call throws, for a job started with a file resume. -/
theorem c3_non_research_failure_fails_job_witness :
    statusOf "analysis_tok" (process_analysis envFail4 "analysis_tok" 5 stStart) =
      some AnalysisStatus.failed ∧
    stepStatusOf .skills_analysis
        (progOf "analysis_tok" (process_analysis envFail4 "analysis_tok" 5 stStart)) =
      some (AnalysisStatus.failed,
        if truthyStr "gap boom" = true then some "gap boom" else none) ∧
    (∀ stp2, (STEP_CONFIG AnalysisStep.skills_analysis).step_number <
        (STEP_CONFIG stp2).step_number →
      stepStatusOf stp2
          (progOf "analysis_tok" (process_analysis envFail4 "analysis_tok" 5 stStart)) =
        some (AnalysisStatus.pending, none)) ∧
    get_result "analysis_tok" (process_analysis envFail4 "analysis_tok" 5 stStart) =
      none :=
  c3_non_research_failure_fails_job envFail4 sdFix descFix none (some "file9")
    none none "tok" 0 5 "analysis_tok" stStart .skills_analysis "gap boom"
    rfl (by decide)

end CareerCraft

namespace CareerCraft

/-! ## Claim C5 — cancellation is not re-checked -/

/-- The interleaving the specification describes: the background run
(`_process_analysis` on the all-success environment) has executed steps
1–4 and step 5's initial `_update_step_status(..., PROCESSING)`, and is
awaiting the external call; `cancel_analysis` runs at that await point
(succeeding, tick 2); then control returns and the run continues exactly
as `_process_analysis` does, never re-reading the job's status.  The
triple is (cancel's return value, the state right after cancellation,
the state after the run finishes). -/
def c5Trace : Bool × ServiceState × ServiceState :=
  match alistGet "analysis_tok" stStart.active_jobs with
  | none => (false, stStart, stStart)
  | some job =>
    let aid := "analysis_tok"
    let req := job.request
    let env := envAllOk
    let t := 1
    let s := set_job_processing aid t stStart
    match execute_step_1_job_analysis env aid req t s with
    | (_, .error _) => (false, stStart, stStart)
    | (s1r, .ok ja) =>
      let r2 := execute_step_2_company_research env aid req ja t s1r
      let s2r := r2.1
      let crp := r2.2
      match execute_step_3_resume_parsing aid req t s2r with
      | (_, .error _) => (false, stStart, stStart)
      | (s3r, .ok pr) =>
        match execute_step_4_skills_analysis env aid req ja pr t s3r with
        | (_, .error _) => (false, stStart, stStart)
        | (s4r, .ok sa) =>
          let s5a := update_step_status aid .resume_enhancement .processing none t s4r
          let c := cancel_analysis aid 2 s5a
          match step5_rest env aid ja pr sa 3 c.2 with
          | (_, .error _) => (false, c.2, c.2)
          | (s5r, .ok rr) =>
            match execute_step_6_cover_letter env aid req crp pr 3 s5r with
            | (_, .error _) => (false, c.2, c.2)
            | (s6r, .ok cl) =>
              match execute_step_7_final_review aid req ja crp pr sa rr cl 3 s6r with
              | (_, .error _) => (false, c.2, c.2)
              | (s7r, .ok fs) =>
                (c.1, c.2,
                 finalize_success aid req ja crp pr sa rr cl fs job.started_at 3 s7r)

/-- C5: the cancellation is accepted (`cancel_analysis` returns `true`
and the job reads `cancelled` at the await point), yet when the in-flight
run returns, its result is NOT ignored: the job ends `completed` and an
`AnalysisResult` is stored — the code never re-checks the cancelled
status after the await, contradicting the claim that the job "is never
subsequently overwritten to completed" and that "no AnalysisResult is
stored". -/
theorem c5_cancelled_job_overwritten_and_result_stored :
    c5Trace.1 = true ∧
    statusOf "analysis_tok" c5Trace.2.1 = some AnalysisStatus.cancelled ∧
    statusOf "analysis_tok" c5Trace.2.2 = some AnalysisStatus.completed ∧
    (resultOf "analysis_tok" c5Trace.2.2).isSome = true := by
  refine ⟨by decide, by decide, by decide, by decide⟩

end CareerCraft
